import Mathlib

/-!
Background shading stage of the Cycles path-tracing integrator

A shallow embedding of `intern/cycles/kernel/integrator/integrator_shade_background.h`.

* `float` is modelled by `ℚ` (exact arithmetic); `float3` is a triple of them.
* `uint32_t` / `int` words that are only combined bitwise are modelled by the `Nat`
  holding their bit pattern; C truthiness of `w & m` is `w &&& m ≠ 0`.
* The constants of `kernel_types.h` and the feature switches tested with `#ifdef`
  are not part of the translated file; they are parameters (`KernelTypes`,
  `KernelFeatures`).
* The collaborators reached through `kg` (shader evaluation, light sampling, texture
  fetches) are fields of `KernelGlobals`.  Every call to one of them, every write to the
  render buffer and every scheduling step is appended to a log of `Call`s, in program
  order, so that "is invoked" / "is not invoked" are statements about that log.

The definitions for `storage.cc` (namespace `Storage`) and for the compositor operations
(namespace `Compositor`) follow the definitions of this part; the theorems come after all
definitions.
-/

namespace Cycles

/-! ## Values -/

/-- Three-component vector `float3`. -/
structure float3 where
  x : ℚ
  y : ℚ
  z : ℚ
deriving DecidableEq, Repr

/-- Constructor `make_float3(x, y, z)`. -/
def make_float3 (x y z : ℚ) : float3 := ⟨x, y, z⟩

/-- Modelled from the spec: `zero_float3()` of the math utilities (not part of the
translated file), the "zero radiance". -/
def zero_float3 : float3 := ⟨0, 0, 0⟩

/-- Modelled from the spec: `operator-(float3, float3)` of the math utilities,
componentwise. -/
instance : Sub float3 := ⟨fun a b => ⟨a.x - b.x, a.y - b.y, a.z - b.z⟩⟩

/-- Modelled from the spec: `operator*(float3, float)` of the math utilities, scaling
every component. -/
instance : HMul float3 ℚ float3 := ⟨fun a f => ⟨a.x * f, a.y * f, a.z * f⟩⟩

/-- Modelled from the spec: `is_zero(float3)` of the math utilities, "exactly zero" in
all three components. -/
def is_zero (a : float3) : Bool := decide (a.x = 0 ∧ a.y = 0 ∧ a.z = 0)

/-- Modelled from the spec: `average(float3)` of the math utilities, which is not part of
the translated file; the specification gives it as the mean of the three channels. -/
def average (a : float3) : ℚ := (a.x + a.y + a.z) / 3

/-- Modelled from the spec: `power_heuristic` of the Monte-Carlo utilities, which is not
part of the translated file.  The specification gives
`weight(pdf_a, pdf_b) = pdf_a² / (pdf_a² + pdf_b²)`, with a guard returning `0` in the
degenerate case where both pdfs are zero. -/
def power_heuristic (a b : ℚ) : ℚ :=
  if a = 0 ∧ b = 0 then 0 else (a * a) / (a * a + b * b)

/-- Complement `~m` of a 32-bit word. -/
def bitnot32 (m : Nat) : Nat := (2 ^ 32 - 1) ^^^ m

/-! ## Parameters: constants and feature switches -/

/-- The enumerators of `kernel_types.h` that the translated file mentions. -/
structure KernelTypes where
  PATH_RAY_CAMERA : Nat
  PATH_RAY_REFLECT : Nat
  PATH_RAY_TRANSMIT : Nat
  PATH_RAY_DIFFUSE : Nat
  PATH_RAY_GLOSSY : Nat
  PATH_RAY_VOLUME_SCATTER : Nat
  PATH_RAY_MIS_SKIP : Nat
  PATH_RAY_EMISSION : Nat
  PATH_RAY_TRANSPARENT_BACKGROUND : Nat
  PATH_RAY_SHADOW_CATCHER_BACKGROUND : Nat
  SHADER_EXCLUDE_DIFFUSE : Nat
  SHADER_EXCLUDE_GLOSSY : Nat
  SHADER_EXCLUDE_TRANSMIT : Nat
  SHADER_EXCLUDE_CAMERA : Nat
  SHADER_EXCLUDE_SCATTER : Nat
  SHADER_EXCLUDE_ANY : Nat
  SD_HAS_RAYTRACE : Nat
  PASS_UNUSED : Int
  /-- The value of `PASSMASK(BACKGROUND)`. -/
  PASSMASK_BACKGROUND : Nat
deriving DecidableEq, Repr

/-- The feature macros tested by the translated file: `true` when the macro is defined. -/
structure KernelFeatures where
  /-- Macro `__BACKGROUND__`. -/
  BACKGROUND : Bool
  /-- Macro `__BACKGROUND_MIS__`. -/
  BACKGROUND_MIS : Bool
  /-- Macro `__PASSES__`. -/
  PASSES : Bool
  /-- Macro `__SHADOW_CATCHER__`. -/
  SHADOW_CATCHER : Bool
deriving DecidableEq, Repr

/-! ## Scene data, path state, collaborators -/

/-- Fields of `kernel_data.background` read here. -/
structure KernelBackground where
  surface_shader : Nat
  use_mis : Int
  transparent : Int
deriving DecidableEq, Repr

/-- Fields of `kernel_data.film` read here. -/
structure KernelFilm where
  light_pass_flag : Nat
  pass_ao : Int
deriving DecidableEq, Repr

/-- Fields of `kernel_data.integrator` read here. -/
structure KernelIntegrator where
  num_all_lights : Int
  ao_bounces_factor : ℚ
deriving DecidableEq, Repr

/-- The record `kernel_data`. -/
structure KernelData where
  background : KernelBackground
  film : KernelFilm
  integrator : KernelIntegrator
deriving DecidableEq, Repr

/-- Fields `INTEGRATOR_STATE(path, _)` used here. -/
structure PathState where
  flag : Nat
  throughput : float3
  mis_ray_pdf : ℚ
  mis_ray_t : ℚ
deriving DecidableEq, Repr

/-- Fields `INTEGRATOR_STATE(ray, _)` used here. -/
structure RayState where
  P : float3
  D : float3
  time : ℚ
deriving DecidableEq, Repr

/-- Fields `INTEGRATOR_STATE(isect, _)` used here. -/
structure IsectState where
  prim : Int
deriving DecidableEq, Repr

/-- The per-path integrator state. -/
structure IntegratorState where
  path : PathState
  ray : RayState
  isect : IsectState
deriving DecidableEq, Repr

/-- The fields of `LightSample` read here (`shader`, `pdf`) and the light it came from. -/
structure LightSample where
  shader : Nat
  pdf : ℚ
  lamp : Nat
deriving DecidableEq, Repr

/-- The device kernels named in the translated file. -/
inductive DeviceKernel where
  | INTEGRATOR_SHADE_BACKGROUND
  | INTEGRATOR_SHADE_SURFACE
  | INTEGRATOR_SHADE_SURFACE_RAYTRACE
deriving DecidableEq, Repr

/-- The collaborators behind `kg`; `SD` is the type of the transient `ShaderData`.
`shader_constant_emission_eval` returns `some L` when the C function returns true after
storing `L`; `light_sample_from_distant_ray` returns `some ls` when the C function
returns true after filling `ls`; `shaders_flags s` is
`kernel_tex_fetch(__shaders, s).flags`. -/
structure KernelGlobals (SD : Type) where
  data : KernelData
  shader_constant_emission_eval : Nat → Option float3
  shader_setup_from_background : float3 → float3 → ℚ → SD
  shader_eval_surface : IntegratorState → SD → Nat → SD
  shader_background_eval : SD → float3
  background_light_pdf : float3 → float3 → ℚ
  light_sample_from_distant_ray : float3 → Nat → Option LightSample
  light_sample_shader_eval : IntegratorState → LightSample → ℚ → float3
  path_state_ao_bounce : IntegratorState → Bool
  intersection_get_shader_from_isect_prim : Int → Int
  shaders_flags : Int → Nat

/-- One entry of the log: a call to a collaborator, a write to the render buffer, or a
scheduling step.  Modelled from the spec: `INTEGRATOR_PATH_NEXT_SORTED` and
`INTEGRATOR_PATH_TERMINATE` are macros defined outside the translated file; the
specification gives their effect as handing the dispatch key (stage, shader id) to the
scheduler, respectively terminating the path. -/
inductive Call where
  | shader_constant_emission_eval (shader : Nat)
  | shader_setup_from_background (P D : float3) (time : ℚ)
  | shader_eval_surface (path_flag : Nat)
  | shader_background_eval
  | background_light_pdf (P D : float3)
  | light_sample_from_distant_ray (ray_D : float3) (lamp : Nat)
  | light_sample_shader_eval (ls : LightSample) (time : ℚ)
  | kernel_accum_background (L : float3) (transparent : ℚ)
      (is_transparent_background_ray : Bool)
  | kernel_accum_emission (throughput L : float3)
  | INTEGRATOR_PATH_NEXT_SORTED (current next : DeviceKernel) (key : Int)
  | INTEGRATOR_PATH_TERMINATE (current : DeviceKernel)
deriving DecidableEq, Repr

/-! ## The kernel functions -/

/-- The visibility test that guards the early `return` both in
`integrator_eval_background_shader` (on `shader`) and in `integrate_distant_lights`
(on `ls.shader`): the outer `if (shader & SHADER_EXCLUDE_ANY)` and the inner five-way
disjunction. -/
def visibility_excluded (kt : KernelTypes) (shader path_flag : Nat) : Bool :=
  if shader &&& kt.SHADER_EXCLUDE_ANY ≠ 0 then
    decide
      ((shader &&& kt.SHADER_EXCLUDE_DIFFUSE ≠ 0 ∧ path_flag &&& kt.PATH_RAY_DIFFUSE ≠ 0) ∨
       (shader &&& kt.SHADER_EXCLUDE_GLOSSY ≠ 0 ∧
          path_flag &&& (kt.PATH_RAY_GLOSSY ||| kt.PATH_RAY_REFLECT) =
            (kt.PATH_RAY_GLOSSY ||| kt.PATH_RAY_REFLECT)) ∨
       (shader &&& kt.SHADER_EXCLUDE_TRANSMIT ≠ 0 ∧ path_flag &&& kt.PATH_RAY_TRANSMIT ≠ 0) ∨
       (shader &&& kt.SHADER_EXCLUDE_CAMERA ≠ 0 ∧ path_flag &&& kt.PATH_RAY_CAMERA ≠ 0) ∨
       (shader &&& kt.SHADER_EXCLUDE_SCATTER ≠ 0 ∧
          path_flag &&& kt.PATH_RAY_VOLUME_SCATTER ≠ 0))
  else
    false

/-- Function `integrator_eval_background_shader`: the radiance returned and the log of
the calls made. -/
def integrator_eval_background_shader {SD : Type} (ft : KernelFeatures) (kt : KernelTypes)
    (kg : KernelGlobals SD) (state : IntegratorState) : float3 × List Call :=
  if ft.BACKGROUND then
    let shader := kg.data.background.surface_shader
    let path_flag := state.path.flag
    /- Use visibility flag to skip lights. -/
    if visibility_excluded kt shader path_flag then
      (zero_float3, [])
    else
      /- Fast path for constant color shader. -/
      match kg.shader_constant_emission_eval shader with
      | some L => (L, [Call.shader_constant_emission_eval shader])
      | none =>
        /- Evaluate background shader. -/
        let emission_sd :=
          kg.shader_setup_from_background state.ray.P state.ray.D state.ray.time
        let emission_sd :=
          kg.shader_eval_surface state emission_sd (path_flag ||| kt.PATH_RAY_EMISSION)
        let L := kg.shader_background_eval emission_sd
        let calls :=
          [Call.shader_constant_emission_eval shader,
           Call.shader_setup_from_background state.ray.P state.ray.D state.ray.time,
           Call.shader_eval_surface (path_flag ||| kt.PATH_RAY_EMISSION),
           Call.shader_background_eval]
        /- Background MIS weights. -/
        if ft.BACKGROUND_MIS ∧
            ¬ (state.path.flag &&& kt.PATH_RAY_MIS_SKIP ≠ 0) ∧
            kg.data.background.use_mis ≠ 0 then
          let ray_P := state.ray.P
          let ray_D := state.ray.D
          let mis_ray_pdf := state.path.mis_ray_pdf
          let mis_ray_t := state.path.mis_ray_t
          let pdf := kg.background_light_pdf (ray_P - ray_D * mis_ray_t) ray_D
          let mis_weight := power_heuristic mis_ray_pdf pdf
          (L * mis_weight,
            calls ++ [Call.background_light_pdf (ray_P - ray_D * mis_ray_t) ray_D])
        else
          (L, calls)
  else
    (make_float3 (4 / 5) (4 / 5) (4 / 5), [])

/-- Function `integrate_background`: the log of the calls made, ending with the write
`kernel_accum_background`. -/
def integrate_background {SD : Type} (ft : KernelFeatures) (kt : KernelTypes)
    (kg : KernelGlobals SD) (state : IntegratorState) : List Call :=
  let is_transparent_background_ray : Bool :=
    decide (kg.data.background.transparent ≠ 0 ∧
      state.path.flag &&& kt.PATH_RAY_TRANSPARENT_BACKGROUND ≠ 0)
  let transparent : ℚ :=
    if is_transparent_background_ray then average state.path.throughput else 0
  let eval_background : Bool :=
    if is_transparent_background_ray then
      (if ft.PASSES then
        decide (kg.data.film.light_pass_flag &&& kt.PASSMASK_BACKGROUND ≠ 0)
      else false)
    else true
  /- Evaluate background shader. -/
  let r : float3 × List Call :=
    if eval_background then integrator_eval_background_shader ft kt kg state
    else (zero_float3, [])
  /- When using the ao bounces approximation, adjust background shader intensity. -/
  let L : float3 :=
    if kg.path_state_ao_bounce state then r.1 * kg.data.integrator.ao_bounces_factor
    else r.1
  /- Write to render buffer. -/
  r.2 ++ [Call.kernel_accum_background L transparent is_transparent_background_ray]

/-- The `for` loop of `integrate_distant_lights`, entered at light index `lamp` with
`n` iterations left (`n = num_all_lights - lamp`).  The empty continuation after an
exclusion or a zero evaluation is the `return` of the C code.  `path_flag` is declared
under `__PASSES__` and read again by the MIS test after it; the model reads it in
either configuration. -/
def integrate_distant_lights_loop {SD : Type} (ft : KernelFeatures) (kt : KernelTypes)
    (kg : KernelGlobals SD) (state : IntegratorState) : Nat → Nat → List Call
  | 0, _ => []
  | n + 1, lamp =>
    let ray_D := state.ray.D
    let ray_time := state.ray.time
    Call.light_sample_from_distant_ray ray_D lamp ::
    match kg.light_sample_from_distant_ray ray_D lamp with
    | none => integrate_distant_lights_loop ft kt kg state n (lamp + 1)
    | some ls =>
      let path_flag := state.path.flag
      /- Use visibility flag to skip lights. -/
      if ft.PASSES ∧ visibility_excluded kt ls.shader path_flag = true then
        []
      else
        /- Evaluate light shader. -/
        let light_eval := kg.light_sample_shader_eval state ls ray_time
        Call.light_sample_shader_eval ls ray_time ::
        if is_zero light_eval then
          []
        else
          /- MIS weighting. -/
          let light_eval : float3 :=
            if ¬ (path_flag &&& kt.PATH_RAY_MIS_SKIP ≠ 0) then
              light_eval * power_heuristic state.path.mis_ray_pdf ls.pdf
            else light_eval
          /- Write to render buffer. -/
          let throughput := state.path.throughput
          Call.kernel_accum_emission throughput light_eval ::
          integrate_distant_lights_loop ft kt kg state n (lamp + 1)

/-- Function `integrate_distant_lights`: the loop over
`lamp = 0 .. kernel_data.integrator.num_all_lights - 1`. -/
def integrate_distant_lights {SD : Type} (ft : KernelFeatures) (kt : KernelTypes)
    (kg : KernelGlobals SD) (state : IntegratorState) : List Call :=
  integrate_distant_lights_loop ft kt kg state kg.data.integrator.num_all_lights.toNat 0

/-- Function `integrator_shade_background`: the path state it leaves and the log of the
calls made, ending with the scheduling step. -/
def integrator_shade_background {SD : Type} (ft : KernelFeatures) (kt : KernelTypes)
    (kg : KernelGlobals SD) (state : IntegratorState) : IntegratorState × List Call :=
  let calls := integrate_distant_lights ft kt kg state ++ integrate_background ft kt kg state
  if ft.SHADOW_CATCHER ∧ state.path.flag &&& kt.PATH_RAY_SHADOW_CATCHER_BACKGROUND ≠ 0 then
    let state1 : IntegratorState :=
      { state with
        path := { state.path with
          flag := state.path.flag &&& bitnot32 kt.PATH_RAY_SHADOW_CATCHER_BACKGROUND } }
    let isect_prim := state1.isect.prim
    let shader := kg.intersection_get_shader_from_isect_prim isect_prim
    let shader_flags := kg.shaders_flags shader
    if shader_flags &&& kt.SD_HAS_RAYTRACE ≠ 0 ∨ kg.data.film.pass_ao ≠ kt.PASS_UNUSED then
      (state1, calls ++ [Call.INTEGRATOR_PATH_NEXT_SORTED
        DeviceKernel.INTEGRATOR_SHADE_BACKGROUND
        DeviceKernel.INTEGRATOR_SHADE_SURFACE_RAYTRACE shader])
    else
      (state1, calls ++ [Call.INTEGRATOR_PATH_NEXT_SORTED
        DeviceKernel.INTEGRATOR_SHADE_BACKGROUND
        DeviceKernel.INTEGRATOR_SHADE_SURFACE shader])
  else
    (state, calls ++ [Call.INTEGRATOR_PATH_TERMINATE DeviceKernel.INTEGRATOR_SHADE_BACKGROUND])

/-! ## Reading the log -/

/-- What the stage dispatcher can schedule for a path: a sorted transition to the kernel
`stage` carrying the shader sort key `key`, or termination. -/
inductive Outcome where
  | next (stage : DeviceKernel) (key : Int)
  | terminated
deriving DecidableEq, Repr

/-- What a call schedules for the path, if anything. -/
def Call.scheduling : Call → Option Outcome
  | Call.INTEGRATOR_PATH_NEXT_SORTED _ next key => some (Outcome.next next key)
  | Call.INTEGRATOR_PATH_TERMINATE _ => some Outcome.terminated
  | _ => none

/-- The scheduling steps of a log, in order. -/
def scheduled (calls : List Call) : List Outcome :=
  calls.filterMap Call.scheduling

/-! ## A concrete configuration, used to exhibit instances -/

/-- An assignment of one distinct bit to every flag. -/
def exampleTypes : KernelTypes where
  PATH_RAY_CAMERA := 1
  PATH_RAY_REFLECT := 2
  PATH_RAY_TRANSMIT := 4
  PATH_RAY_DIFFUSE := 8
  PATH_RAY_GLOSSY := 16
  PATH_RAY_VOLUME_SCATTER := 2 ^ 9
  PATH_RAY_MIS_SKIP := 2 ^ 11
  PATH_RAY_EMISSION := 2 ^ 19
  PATH_RAY_TRANSPARENT_BACKGROUND := 2 ^ 17
  PATH_RAY_SHADOW_CATCHER_BACKGROUND := 2 ^ 31
  SHADER_EXCLUDE_DIFFUSE := 2 ^ 27
  SHADER_EXCLUDE_GLOSSY := 2 ^ 26
  SHADER_EXCLUDE_TRANSMIT := 2 ^ 25
  SHADER_EXCLUDE_CAMERA := 2 ^ 24
  SHADER_EXCLUDE_SCATTER := 2 ^ 23
  SHADER_EXCLUDE_ANY := 2 ^ 27 + 2 ^ 26 + 2 ^ 25 + 2 ^ 24 + 2 ^ 23 + 2 ^ 22
  SD_HAS_RAYTRACE := 2 ^ 23
  PASS_UNUSED := -1
  PASSMASK_BACKGROUND := 2 ^ 3

/-- The build with every feature macro defined. -/
def allFeatures : KernelFeatures := ⟨true, true, true, true⟩

/-- A scene with one distant light, a graph-evaluated background whose colour is the ray
direction, MIS enabled, and a light pdf of 1; `ShaderData` is the recorded direction.
The background shader word excludes diffuse rays. -/
def exampleGlobals : KernelGlobals float3 where
  data :=
    { background := { surface_shader := 2 ^ 27 + 5, use_mis := 1, transparent := 0 }
      film := { light_pass_flag := 0, pass_ao := -1 }
      integrator := { num_all_lights := 1, ao_bounces_factor := 1 } }
  shader_constant_emission_eval := fun _ => none
  shader_setup_from_background := fun _ D _ => D
  shader_eval_surface := fun _ sd _ => sd
  shader_background_eval := fun sd => sd
  background_light_pdf := fun _ _ => 1
  light_sample_from_distant_ray := fun _ lamp => some ⟨7, 1, lamp⟩
  light_sample_shader_eval := fun _ _ _ => ⟨1, 1, 1⟩
  path_state_ao_bounce := fun _ => false
  intersection_get_shader_from_isect_prim := fun prim => prim + 1
  shaders_flags := fun s => if s = 4 then 2 ^ 23 else 0

/-- As `exampleGlobals`, with a constant-emission background of colour
`(0.2, 0.3, 0.4)` and background MIS switched off. -/
def exampleConstantGlobals : KernelGlobals float3 :=
  { exampleGlobals with
    data := { exampleGlobals.data with
      background := { surface_shader := 5, use_mis := 0, transparent := 0 } }
    shader_constant_emission_eval := fun _ => some ⟨1 / 5, 3 / 10, 2 / 5⟩ }

/-- A path state with the given flag word: ray from the origin along `+z`, throughput
one half, last intersection on primitive 3. -/
def exampleState (flag : Nat) : IntegratorState where
  path := { flag := flag, throughput := ⟨1 / 2, 1 / 2, 1 / 2⟩, mis_ray_pdf := 1, mis_ray_t := 2 }
  ray := { P := ⟨0, 0, 0⟩, D := ⟨0, 0, 1⟩, time := 0 }
  isect := { prim := 3 }

/-- The writes `kernel_accum_emission(throughput, L)` of a log, in order. -/
def emission_writes (calls : List Call) : List (float3 × float3) :=
  calls.filterMap fun c =>
    match c with
    | Call.kernel_accum_emission throughput L => some (throughput, L)
    | _ => none

/-- The writes `kernel_accum_background(L, transparent, is_transparent_background_ray)`
of a log, in order. -/
def background_writes (calls : List Call) : List (float3 × ℚ × Bool) :=
  calls.filterMap fun c =>
    match c with
    | Call.kernel_accum_background L transparent is_transparent_background_ray =>
      some (L, transparent, is_transparent_background_ray)
    | _ => none

/-- Whether the `for` loop of `integrate_distant_lights`, run for `n` iterations from
light index `lamp`, leaves through one of its two `return` statements (a hit light that is
excluded, or a hit light that evaluates to zero). -/
def integrate_distant_lights_returns {SD : Type} (ft : KernelFeatures) (kt : KernelTypes)
    (kg : KernelGlobals SD) (state : IntegratorState) : Nat → Nat → Bool
  | 0, _ => false
  | n + 1, lamp =>
    match kg.light_sample_from_distant_ray state.ray.D lamp with
    | none => integrate_distant_lights_returns ft kt kg state n (lamp + 1)
    | some ls =>
      if ft.PASSES ∧ visibility_excluded kt ls.shader state.path.flag = true then
        true
      else if is_zero (kg.light_sample_shader_eval state ls state.ray.time) then
        true
      else
        integrate_distant_lights_returns ft kt kg state n (lamp + 1)

/-- As `exampleGlobals`, with two distant lights, both hit by every ray: light 0 emits
red `(1, 0, 0)`, light 1 emits green `(0, 1, 0)`. -/
def exampleTwoLights : KernelGlobals float3 :=
  { exampleGlobals with
    data := { exampleGlobals.data with
      integrator := { num_all_lights := 2, ao_bounces_factor := 1 } }
    light_sample_shader_eval := fun _ ls _ => if ls.lamp = 0 then ⟨1, 0, 0⟩ else ⟨0, 1, 0⟩ }

/-- As `exampleTwoLights`, but the shader word of light 0 carries the camera exclusion
bit. -/
def exampleBlockedLights : KernelGlobals float3 :=
  { exampleTwoLights with
    light_sample_from_distant_ray := fun _ lamp =>
      some ⟨if lamp = 0 then 2 ^ 24 + 7 else 7, 1, lamp⟩ }

/-- As `exampleGlobals`, with a globally transparent background, no background pass
requested, and the AO-bounce approximation active with factor `1/4`. -/
def exampleTransparentGlobals : KernelGlobals float3 :=
  { exampleGlobals with
    data :=
      { background := { surface_shader := 2 ^ 27 + 5, use_mis := 1, transparent := 1 }
        film := { light_pass_flag := 0, pass_ao := -1 }
        integrator := { num_all_lights := 1, ao_bounces_factor := 1 / 4 } }
    path_state_ao_bounce := fun _ => true }

/-- The lights for which a log of `integrate_distant_lights` holds an emission write: each
`kernel_accum_emission` entry is attributed to the light of the latest preceding hit test
`light_sample_from_distant_ray(…, lamp, …)` (`cur`), in log order. -/
def accumulated_lamps : List Call → Option Nat → List Nat
  | [], _ => []
  | Call.light_sample_from_distant_ray _ lamp :: l, _ => accumulated_lamps l (some lamp)
  | Call.kernel_accum_emission _ _ :: l, some lamp => lamp :: accumulated_lamps l (some lamp)
  | _ :: l, cur => accumulated_lamps l cur

/-- Whether light `lamp` is a hit light at which the loop of `integrate_distant_lights`
executes `return`: it is hit and either excluded by the visibility test (in a build with
the passes feature) or its shader evaluates to zero. -/
def light_stops {SD : Type} (ft : KernelFeatures) (kt : KernelTypes)
    (kg : KernelGlobals SD) (state : IntegratorState) (lamp : Nat) : Bool :=
  match kg.light_sample_from_distant_ray state.ray.D lamp with
  | none => false
  | some ls =>
    (ft.PASSES && visibility_excluded kt ls.shader state.path.flag) ||
      is_zero (kg.light_sample_shader_eval state ls state.ray.time)

end Cycles

/-!
Text file reading (`source/blender/blenlib/intern/storage.cc`)

Bytes (`char`) are modelled by `Nat`, a buffer by the list of its bytes, a pointer into the
buffer by its offset from the start.  The file system is not modelled: the outcome of
opening and reading the file is an argument (`none` when the read fails).
-/

namespace Storage

/-- The C library function `memchr(mem + p, c, len)`: the offset of the first byte equal
to `c` among the `len` bytes starting at offset `p`, `none` for `NULL`. -/
def memchr (mem : List Nat) (c : Nat) : Nat → Nat → Option Nat
  | _, 0 => none
  | p, len + 1 => if mem.getD p 0 = c then some p else memchr mem c (p + 1) len

/-- Function `BLI_file_read_text_as_mem` as far as its result goes: on success a buffer of
`*r_size + pad_bytes` bytes whose first `*r_size` bytes are the text read; the pad bytes
are uninitialised, their initial contents are the argument `pad`
(`pad_bytes = pad.length`). -/
def BLI_file_read_text_as_mem (file : Option (List Nat)) (pad : List Nat) :
    Option (List Nat × Nat) :=
  match file with
  | none => none
  | some text => some (text ++ pad, text.length)

/-- The inner loop
`for (p_trim = p_next - 1; p_trim > p && ELEM(*p_trim, ' ', '\t'); p_trim--) *p_trim = 0`,
entered with the given value of `p_trim`.  When `p_next = p` the start value is below `p`
and the body is not entered, which also holds for the truncated `p_next - 1` on `Nat`. -/
def trim_loop (p : Nat) : Nat → List Nat → List Nat
  | 0, mem => mem
  | p_trim + 1, mem =>
    if p_trim + 1 > p ∧ (mem.getD (p_trim + 1) 0 = 32 ∨ mem.getD (p_trim + 1) 0 = 9) then
      trim_loop p p_trim (mem.set (p_trim + 1) 0)
    else mem

/-- The outer loop `for (p = mem; p != mem_end; p = p_next)` of
`BLI_file_read_text_as_mem_with_newline_as_nil`, entered at offset `p`; `fuel` bounds the
number of evaluations of the loop condition, `none` means the bound was reached. -/
def newline_as_nil_loop (trim_trailing_space : Bool) (mem_end : Nat) :
    Nat → Nat → List Nat → Option (List Nat)
  | 0, _, _ => none
  | fuel + 1, p, mem =>
    if p ≠ mem_end then
      match memchr mem 10 p (mem_end - p) with
      | some p_next =>
        let mem := if trim_trailing_space then trim_loop p (p_next - 1) mem else mem
        let mem := mem.set p_next 0
        newline_as_nil_loop trim_trailing_space mem_end fuel (p_next + 1) mem
      | none => newline_as_nil_loop trim_trailing_space mem_end fuel mem_end mem
    else some mem

/-- Function `BLI_file_read_text_as_mem_with_newline_as_nil`: the buffer returned and
`*r_size`, or `none` for `NULL`.  The outer loop is given `*r_size + 1` evaluations of
its condition. -/
def BLI_file_read_text_as_mem_with_newline_as_nil (file : Option (List Nat))
    (trim_trailing_space : Bool) (pad : List Nat) : Option (List Nat × Nat) :=
  match BLI_file_read_text_as_mem file pad with
  | none => none
  | some (mem, r_size) =>
    let mem_end := r_size
    let mem := if pad.length ≠ 0 then mem.set mem_end 0 else mem
    match newline_as_nil_loop trim_trailing_space mem_end (r_size + 1) 0 mem with
    | some mem => some (mem, r_size)
    | none => none

/-- Modelled from the spec: `BLI_strdupn(&buf[start], len)` of the string utilities (not
part of the translated file): a new block holding the `len` bytes from offset `start`
(and a terminating nil, which is not part of the list). -/
def BLI_strdupn (buf : List Nat) (start len : Nat) : List Nat :=
  (buf.drop start).take len

/-- The loop `for (i = 0; i <= size; i++)` of `BLI_file_read_as_lines`, with `k`
iterations left (`k = size + 1 - i`). -/
def read_as_lines_loop (buf : List Nat) (size : Nat) :
    Nat → Nat → Nat → List (List Nat) → List (List Nat)
  | 0, _, _, lines => lines
  | k + 1, i, last, lines =>
    if i = size ∨ buf.getD i 0 = 10 then
      read_as_lines_loop buf size k (i + 1) (i + 1) (lines ++ [BLI_strdupn buf last (i - last)])
    else
      read_as_lines_loop buf size k (i + 1) last lines

/-- Function `BLI_file_read_as_lines`: the linked list of lines, `[]` for `NULL`.  The
argument is the bytes that `fread` delivers, `none` when the file cannot be opened, its
size cannot be determined, or the buffer cannot be allocated. -/
def BLI_file_read_as_lines (file : Option (List Nat)) : List (List Nat) :=
  match file with
  | none => []
  | some buf => read_as_lines_loop buf buf.length (buf.length + 1) 0 0 []

/-- The content split at every newline byte: the reading of "the lines of the file"
against which `BLI_file_read_as_lines` is compared. -/
def split_at_newlines : List Nat → List (List Nat)
  | [] => [[]]
  | c :: cs =>
    if c = 10 then [] :: split_at_newlines cs
    else
      match split_at_newlines cs with
      | [] => [[c]]
      | l :: ls => (c :: l) :: ls

end Storage

/-!
Compositor operations (`COM_WrapOperation.cc`, `COM_MaskOperation.h`)

`float` is modelled by `ℚ` (exact arithmetic), `int` by `Int`, `unsigned int` by `Nat`.
-/

namespace Compositor

/-- The fields of `WrapOperation` used by the wrapping functions (`m_width` and `m_height`
of the base class, both `unsigned int`). -/
structure WrapOperation where
  m_width : Nat
  m_height : Nat
deriving DecidableEq, Repr

/-- Accessor `getWidth()` of the base class (declared outside the translated file):
returns `m_width`. -/
def WrapOperation.getWidth (op : WrapOperation) : Nat := op.m_width

/-- Accessor `getHeight()` of the base class (declared outside the translated file):
returns `m_height`. -/
def WrapOperation.getHeight (op : WrapOperation) : Nat := op.m_height

/-- The C library function `fmodf(x, y)` in exact arithmetic: `x - n * y` with `n` the
quotient `x / y` truncated toward zero. -/
def fmodf (x y : ℚ) : ℚ :=
  x - ((if 0 ≤ x / y then ⌊x / y⌋ else ⌈x / y⌉ : ℤ) : ℚ) * y

/-- The loop `while (x < 0) x += step`; `fuel` bounds the number of executions of the
body, `none` means the bound was reached with `x` still negative. -/
def wrap_while (step : ℚ) : Nat → ℚ → Option ℚ
  | 0, x => if x < 0 then none else some x
  | fuel + 1, x => if x < 0 then wrap_while step fuel (x + step) else some x

/-- Function `WrapOperation::getWrappedOriginalXPos`; `none` when the loop has not ended
within `fuel` executions of its body. -/
def WrapOperation.getWrappedOriginalXPos (op : WrapOperation) (fuel : Nat) (x : ℚ) :
    Option ℚ :=
  if op.getWidth = 0 then some 0
  else
    match wrap_while op.m_width fuel x with
    | some x => some (fmodf x op.getWidth)
    | none => none

/-- Function `WrapOperation::getWrappedOriginalYPos`; `none` when the loop has not ended
within `fuel` executions of its body. -/
def WrapOperation.getWrappedOriginalYPos (op : WrapOperation) (fuel : Nat) (y : ℚ) :
    Option ℚ :=
  if op.getHeight = 0 then some 0
  else
    match wrap_while op.m_height fuel y with
    | some y => some (fmodf y op.getHeight)
    | none => none

/-- Modelled from the spec: macro `MAX2(a, b)` of the utility headers (not part of the
translated file), `(a) > (b) ? (a) : (b)`. -/
def MAX2 (a b : Int) : Int := if a > b then a else b

/-- Modelled from the spec: macro `MIN2(a, b)` of the utility headers (not part of the
translated file), `(a) < (b) ? (a) : (b)`. -/
def MIN2 (a b : Int) : Int := if a < b then a else b

/-- The integer and boolean fields of `MaskOperation` set by its inline setters. -/
structure MaskOperation where
  m_frame_number : Int
  m_do_feather : Bool
  m_rasterMaskHandleTot : Nat
deriving DecidableEq, Repr

/-- Function `MaskOperation::setMotionBlurSamples`.  `CMP_NODE_MASK_MBLUR_SAMPLES_MAX`
is defined outside the translated file and is a parameter; the `int` result of the
macros is converted to the `unsigned int` field modulo `2^32`. -/
def MaskOperation.setMotionBlurSamples (CMP_NODE_MASK_MBLUR_SAMPLES_MAX : Int)
    (op : MaskOperation) (samples : Int) : MaskOperation :=
  { op with
    m_rasterMaskHandleTot :=
      ((MIN2 (MAX2 1 samples) CMP_NODE_MASK_MBLUR_SAMPLES_MAX) % 2 ^ 32).toNat }

end Compositor

namespace Cycles

/-! ## Unfolding lemmas, one per path through each function -/

theorem integrator_eval_background_shader_disabled {SD : Type} (ft : KernelFeatures)
    (kt : KernelTypes) (kg : KernelGlobals SD) (state : IntegratorState)
    (hB : ft.BACKGROUND = false) :
    integrator_eval_background_shader ft kt kg state
      = (make_float3 (4 / 5) (4 / 5) (4 / 5), []) := by
  simp [integrator_eval_background_shader, hB]

theorem integrator_eval_background_shader_excluded {SD : Type} (ft : KernelFeatures)
    (kt : KernelTypes) (kg : KernelGlobals SD) (state : IntegratorState)
    (hB : ft.BACKGROUND = true)
    (hex : visibility_excluded kt kg.data.background.surface_shader state.path.flag = true) :
    integrator_eval_background_shader ft kt kg state = (zero_float3, []) := by
  simp [integrator_eval_background_shader, hB, hex]

theorem integrator_eval_background_shader_constant {SD : Type} (ft : KernelFeatures)
    (kt : KernelTypes) (kg : KernelGlobals SD) (state : IntegratorState) (c : float3)
    (hB : ft.BACKGROUND = true)
    (hex : visibility_excluded kt kg.data.background.surface_shader state.path.flag = false)
    (hc : kg.shader_constant_emission_eval kg.data.background.surface_shader = some c) :
    integrator_eval_background_shader ft kt kg state
      = (c, [Call.shader_constant_emission_eval kg.data.background.surface_shader]) := by
  simp [integrator_eval_background_shader, hB, hex, hc]

theorem integrator_eval_background_shader_graph {SD : Type} (ft : KernelFeatures)
    (kt : KernelTypes) (kg : KernelGlobals SD) (state : IntegratorState)
    (hB : ft.BACKGROUND = true)
    (hex : visibility_excluded kt kg.data.background.surface_shader state.path.flag = false)
    (hc : kg.shader_constant_emission_eval kg.data.background.surface_shader = none)
    (hmis : ¬ (ft.BACKGROUND_MIS = true ∧ state.path.flag &&& kt.PATH_RAY_MIS_SKIP = 0 ∧
      kg.data.background.use_mis ≠ 0)) :
    integrator_eval_background_shader ft kt kg state
      = (kg.shader_background_eval
          (kg.shader_eval_surface state
            (kg.shader_setup_from_background state.ray.P state.ray.D state.ray.time)
            (state.path.flag ||| kt.PATH_RAY_EMISSION)),
         [Call.shader_constant_emission_eval kg.data.background.surface_shader,
          Call.shader_setup_from_background state.ray.P state.ray.D state.ray.time,
          Call.shader_eval_surface (state.path.flag ||| kt.PATH_RAY_EMISSION),
          Call.shader_background_eval]) := by
  have hmis1 : ¬ (ft.BACKGROUND_MIS = true ∧ ¬ (state.path.flag &&& kt.PATH_RAY_MIS_SKIP ≠ 0) ∧
      kg.data.background.use_mis ≠ 0) := by
    simpa using hmis
  simp only [integrator_eval_background_shader, hB, hex, hc, if_true, if_neg hmis1,
    Bool.false_eq_true, if_false]

theorem integrator_eval_background_shader_graph_mis {SD : Type} (ft : KernelFeatures)
    (kt : KernelTypes) (kg : KernelGlobals SD) (state : IntegratorState)
    (hB : ft.BACKGROUND = true)
    (hex : visibility_excluded kt kg.data.background.surface_shader state.path.flag = false)
    (hc : kg.shader_constant_emission_eval kg.data.background.surface_shader = none)
    (hmis : ft.BACKGROUND_MIS = true ∧ state.path.flag &&& kt.PATH_RAY_MIS_SKIP = 0 ∧
      kg.data.background.use_mis ≠ 0) :
    integrator_eval_background_shader ft kt kg state
      = (kg.shader_background_eval
          (kg.shader_eval_surface state
            (kg.shader_setup_from_background state.ray.P state.ray.D state.ray.time)
            (state.path.flag ||| kt.PATH_RAY_EMISSION)) *
          power_heuristic state.path.mis_ray_pdf
            (kg.background_light_pdf (state.ray.P - state.ray.D * state.path.mis_ray_t)
              state.ray.D),
         [Call.shader_constant_emission_eval kg.data.background.surface_shader,
          Call.shader_setup_from_background state.ray.P state.ray.D state.ray.time,
          Call.shader_eval_surface (state.path.flag ||| kt.PATH_RAY_EMISSION),
          Call.shader_background_eval,
          Call.background_light_pdf (state.ray.P - state.ray.D * state.path.mis_ray_t)
            state.ray.D]) := by
  have hmis1 : ft.BACKGROUND_MIS = true ∧ ¬ (state.path.flag &&& kt.PATH_RAY_MIS_SKIP ≠ 0) ∧
      kg.data.background.use_mis ≠ 0 := by
    simpa using hmis
  simp only [integrator_eval_background_shader, hB, hex, hc, if_true, if_pos hmis1,
    Bool.false_eq_true, if_false, List.cons_append, List.nil_append]

theorem integrate_distant_lights_loop_zero {SD : Type} (ft : KernelFeatures)
    (kt : KernelTypes) (kg : KernelGlobals SD) (state : IntegratorState) (lamp : Nat) :
    integrate_distant_lights_loop ft kt kg state 0 lamp = [] := by
  simp [integrate_distant_lights_loop]

theorem integrate_distant_lights_loop_miss {SD : Type} (ft : KernelFeatures)
    (kt : KernelTypes) (kg : KernelGlobals SD) (state : IntegratorState) (n lamp : Nat)
    (hls : kg.light_sample_from_distant_ray state.ray.D lamp = none) :
    integrate_distant_lights_loop ft kt kg state (n + 1) lamp
      = Call.light_sample_from_distant_ray state.ray.D lamp ::
          integrate_distant_lights_loop ft kt kg state n (lamp + 1) := by
  simp [integrate_distant_lights_loop, hls]

theorem integrate_distant_lights_loop_excluded {SD : Type} (ft : KernelFeatures)
    (kt : KernelTypes) (kg : KernelGlobals SD) (state : IntegratorState) (n lamp : Nat)
    (ls : LightSample)
    (hls : kg.light_sample_from_distant_ray state.ray.D lamp = some ls)
    (hP : ft.PASSES = true)
    (hex : visibility_excluded kt ls.shader state.path.flag = true) :
    integrate_distant_lights_loop ft kt kg state (n + 1) lamp
      = [Call.light_sample_from_distant_ray state.ray.D lamp] := by
  simp [integrate_distant_lights_loop, hls, hP, hex]

theorem integrate_distant_lights_loop_zero_eval {SD : Type} (ft : KernelFeatures)
    (kt : KernelTypes) (kg : KernelGlobals SD) (state : IntegratorState) (n lamp : Nat)
    (ls : LightSample)
    (hls : kg.light_sample_from_distant_ray state.ray.D lamp = some ls)
    (hex : ¬ (ft.PASSES = true ∧ visibility_excluded kt ls.shader state.path.flag = true))
    (hz : is_zero (kg.light_sample_shader_eval state ls state.ray.time) = true) :
    integrate_distant_lights_loop ft kt kg state (n + 1) lamp
      = [Call.light_sample_from_distant_ray state.ray.D lamp,
         Call.light_sample_shader_eval ls state.ray.time] := by
  simp only [integrate_distant_lights_loop, hls, if_neg hex, hz, if_true]

theorem integrate_distant_lights_loop_accum {SD : Type} (ft : KernelFeatures)
    (kt : KernelTypes) (kg : KernelGlobals SD) (state : IntegratorState) (n lamp : Nat)
    (ls : LightSample)
    (hls : kg.light_sample_from_distant_ray state.ray.D lamp = some ls)
    (hex : ¬ (ft.PASSES = true ∧ visibility_excluded kt ls.shader state.path.flag = true))
    (hz : is_zero (kg.light_sample_shader_eval state ls state.ray.time) = false) :
    integrate_distant_lights_loop ft kt kg state (n + 1) lamp
      = Call.light_sample_from_distant_ray state.ray.D lamp ::
        Call.light_sample_shader_eval ls state.ray.time ::
        Call.kernel_accum_emission state.path.throughput
          (if state.path.flag &&& kt.PATH_RAY_MIS_SKIP = 0 then
            kg.light_sample_shader_eval state ls state.ray.time *
              power_heuristic state.path.mis_ray_pdf ls.pdf
           else kg.light_sample_shader_eval state ls state.ray.time) ::
        integrate_distant_lights_loop ft kt kg state n (lamp + 1) := by
  simp only [integrate_distant_lights_loop, hls, if_neg hex, hz, Bool.false_eq_true, if_false,
    ne_eq, not_not]

/-! ## Lemmas on the log -/

theorem scheduled_nil : scheduled [] = [] := rfl

theorem scheduled_append (a b : List Call) : scheduled (a ++ b) = scheduled a ++ scheduled b := by
  simp [scheduled, List.filterMap_append]

theorem scheduled_cons (c : Call) (l : List Call) :
    scheduled (c :: l) = c.scheduling.toList ++ scheduled l := by
  cases h : c.scheduling <;> simp [scheduled, List.filterMap_cons, h]

theorem scheduled_integrator_eval_background_shader {SD : Type} (ft : KernelFeatures)
    (kt : KernelTypes) (kg : KernelGlobals SD) (state : IntegratorState) :
    scheduled (integrator_eval_background_shader ft kt kg state).2 = [] := by
  cases hB : ft.BACKGROUND
  · rw [integrator_eval_background_shader_disabled ft kt kg state hB]; rfl
  cases hex : visibility_excluded kt kg.data.background.surface_shader state.path.flag
  swap
  · rw [integrator_eval_background_shader_excluded ft kt kg state hB hex]; rfl
  cases hc : kg.shader_constant_emission_eval kg.data.background.surface_shader with
  | some c => rw [integrator_eval_background_shader_constant ft kt kg state c hB hex hc]; rfl
  | none =>
    by_cases hmis : ft.BACKGROUND_MIS = true ∧ state.path.flag &&& kt.PATH_RAY_MIS_SKIP = 0 ∧
      kg.data.background.use_mis ≠ 0
    · rw [integrator_eval_background_shader_graph_mis ft kt kg state hB hex hc hmis]; rfl
    · rw [integrator_eval_background_shader_graph ft kt kg state hB hex hc hmis]; rfl

theorem scheduled_integrate_background {SD : Type} (ft : KernelFeatures) (kt : KernelTypes)
    (kg : KernelGlobals SD) (state : IntegratorState) :
    scheduled (integrate_background ft kt kg state) = [] := by
  have h := scheduled_integrator_eval_background_shader ft kt kg state
  unfold integrate_background
  simp only [scheduled_append, scheduled_cons, scheduled_nil, Call.scheduling]
  split_ifs <;> simp [h, scheduled_nil]

theorem scheduled_integrate_distant_lights_loop {SD : Type} (ft : KernelFeatures)
    (kt : KernelTypes) (kg : KernelGlobals SD) (state : IntegratorState) (n lamp : Nat) :
    scheduled (integrate_distant_lights_loop ft kt kg state n lamp) = [] := by
  induction n generalizing lamp with
  | zero => rw [integrate_distant_lights_loop_zero]; rfl
  | succ n ih =>
    cases hls : kg.light_sample_from_distant_ray state.ray.D lamp with
    | none =>
      rw [integrate_distant_lights_loop_miss ft kt kg state n lamp hls, scheduled_cons, ih]
      rfl
    | some ls =>
      by_cases hex : ft.PASSES = true ∧ visibility_excluded kt ls.shader state.path.flag = true
      · rw [integrate_distant_lights_loop_excluded ft kt kg state n lamp ls hls hex.1 hex.2]
        rfl
      · cases hz : is_zero (kg.light_sample_shader_eval state ls state.ray.time)
        · rw [integrate_distant_lights_loop_accum ft kt kg state n lamp ls hls hex hz,
            scheduled_cons, scheduled_cons, scheduled_cons, ih]
          rfl
        · rw [integrate_distant_lights_loop_zero_eval ft kt kg state n lamp ls hls hex hz]
          rfl

theorem scheduled_before_dispatch {SD : Type} (ft : KernelFeatures) (kt : KernelTypes)
    (kg : KernelGlobals SD) (state : IntegratorState) :
    scheduled (integrate_distant_lights ft kt kg state ++ integrate_background ft kt kg state)
      = [] := by
  rw [scheduled_append, scheduled_integrate_background]
  unfold integrate_distant_lights
  rw [scheduled_integrate_distant_lights_loop]
  rfl

theorem integrator_shade_background_no_catcher {SD : Type} (ft : KernelFeatures)
    (kt : KernelTypes) (kg : KernelGlobals SD) (state : IntegratorState)
    (h : ¬ (ft.SHADOW_CATCHER = true ∧
      state.path.flag &&& kt.PATH_RAY_SHADOW_CATCHER_BACKGROUND ≠ 0)) :
    integrator_shade_background ft kt kg state
      = (state, (integrate_distant_lights ft kt kg state ++ integrate_background ft kt kg state)
          ++ [Call.INTEGRATOR_PATH_TERMINATE DeviceKernel.INTEGRATOR_SHADE_BACKGROUND]) := by
  simp only [integrator_shade_background, if_neg h]

theorem integrator_shade_background_catcher {SD : Type} (ft : KernelFeatures)
    (kt : KernelTypes) (kg : KernelGlobals SD) (state : IntegratorState)
    (h : ft.SHADOW_CATCHER = true ∧
      state.path.flag &&& kt.PATH_RAY_SHADOW_CATCHER_BACKGROUND ≠ 0) :
    integrator_shade_background ft kt kg state
      = ({ state with
            path := { state.path with
              flag := state.path.flag &&& bitnot32 kt.PATH_RAY_SHADOW_CATCHER_BACKGROUND } },
         (integrate_distant_lights ft kt kg state ++ integrate_background ft kt kg state)
          ++ [Call.INTEGRATOR_PATH_NEXT_SORTED DeviceKernel.INTEGRATOR_SHADE_BACKGROUND
                (if kg.shaders_flags
                      (kg.intersection_get_shader_from_isect_prim state.isect.prim)
                      &&& kt.SD_HAS_RAYTRACE ≠ 0 ∨
                    kg.data.film.pass_ao ≠ kt.PASS_UNUSED then
                  DeviceKernel.INTEGRATOR_SHADE_SURFACE_RAYTRACE
                 else DeviceKernel.INTEGRATOR_SHADE_SURFACE)
                (kg.intersection_get_shader_from_isect_prim state.isect.prim)]) := by
  simp only [integrator_shade_background, if_pos h]
  split_ifs <;> rfl

theorem scheduled_dispatch {SD : Type} (ft : KernelFeatures) (kt : KernelTypes)
    (kg : KernelGlobals SD) (state : IntegratorState) (c : Call) :
    scheduled ((integrate_distant_lights ft kt kg state ++ integrate_background ft kt kg state)
      ++ [c]) = c.scheduling.toList := by
  rw [scheduled_append, scheduled_before_dispatch, scheduled_cons, scheduled_nil]
  simp

/-! ## Vector arithmetic -/

theorem float3_sub_def (a b : float3) : a - b = ⟨a.x - b.x, a.y - b.y, a.z - b.z⟩ := rfl

theorem float3_scale_def (a : float3) (f : ℚ) : a * f = ⟨a.x * f, a.y * f, a.z * f⟩ := rfl

/-! ## Bit-level lemmas -/

theorem and_bitnot32_and (x m : Nat) (hm : m < 2 ^ 32) : (x &&& bitnot32 m) &&& m = 0 := by
  apply Nat.eq_of_testBit_eq
  intro i
  simp only [bitnot32, Nat.testBit_and, Nat.testBit_xor, Nat.testBit_two_pow_sub_one,
    Nat.zero_testBit]
  by_cases hi : i < 32
  · cases x.testBit i <;> cases m.testBit i <;> simp [hi]
  · have hlt : m < 2 ^ i :=
      lt_of_lt_of_le hm (Nat.pow_le_pow_right (by norm_num) (not_lt.mp hi))
    simp [Nat.testBit_lt_two_pow hlt]

theorem and_two_pow_ne_zero_iff (x i : Nat) : x &&& 2 ^ i ≠ 0 ↔ x &&& 2 ^ i = 2 ^ i := by
  rw [Nat.and_two_pow]
  have hpos : 0 < 2 ^ i := Nat.two_pow_pos i
  cases x.testBit i
  · simp; omega
  · simp

theorem and_or_eq_iff (x a b : Nat) :
    x &&& (a ||| b) = a ||| b ↔ x &&& a = a ∧ x &&& b = b := by
  constructor
  · intro h
    constructor <;>
    · apply Nat.eq_of_testBit_eq
      intro i
      have hi := congrArg (fun n => n.testBit i) h
      simp only [Nat.testBit_and, Nat.testBit_or] at hi ⊢
      revert hi
      cases x.testBit i <;> cases a.testBit i <;> cases b.testBit i <;> simp
  · rintro ⟨ha, hb⟩
    apply Nat.eq_of_testBit_eq
    intro i
    have hai := congrArg (fun n => n.testBit i) ha
    have hbi := congrArg (fun n => n.testBit i) hb
    simp only [Nat.testBit_and, Nat.testBit_or] at hai hbi ⊢
    revert hai hbi
    cases x.testBit i <;> cases a.testBit i <;> cases b.testBit i <;> simp

theorem and_ne_zero_of_subset (x a m : Nat) (ham : a &&& m = a) (hx : x &&& a ≠ 0) :
    x &&& m ≠ 0 := by
  intro h0
  apply hx
  rw [← ham, ← Nat.and_assoc, Nat.and_comm x a, Nat.and_assoc, h0]
  simp

/-! ## Stage dispatcher -/

/-- Claim C1: for every path state and every configuration (feature switches, constants,
scene data, collaborators), the log of one invocation of `integrator_shade_background`
contains exactly one scheduling step, and that step is a transition to
`SHADE_SURFACE_RAYTRACE`, a transition to `SHADE_SURFACE`, or termination. -/
theorem integrator_shade_background_one_outcome {SD : Type} (ft : KernelFeatures)
    (kt : KernelTypes) (kg : KernelGlobals SD) (state : IntegratorState) :
    ∃ o : Outcome,
      scheduled (integrator_shade_background ft kt kg state).2 = [o] ∧
      ((∃ key, o = Outcome.next DeviceKernel.INTEGRATOR_SHADE_SURFACE_RAYTRACE key) ∨
       (∃ key, o = Outcome.next DeviceKernel.INTEGRATOR_SHADE_SURFACE key) ∨
       o = Outcome.terminated) := by
  by_cases h : ft.SHADOW_CATCHER = true ∧
      state.path.flag &&& kt.PATH_RAY_SHADOW_CATCHER_BACKGROUND ≠ 0
  · rw [integrator_shade_background_catcher ft kt kg state h]
    simp only [scheduled_dispatch, Call.scheduling, Option.toList]
    split_ifs
    · exact ⟨_, rfl, Or.inl ⟨_, rfl⟩⟩
    · exact ⟨_, rfl, Or.inr (Or.inl ⟨_, rfl⟩)⟩
  · rw [integrator_shade_background_no_catcher ft kt kg state h]
    simp only [scheduled_dispatch, Call.scheduling, Option.toList]
    exact ⟨_, rfl, Or.inr (Or.inr rfl)⟩

/-- Claim C2: when `PATH_RAY_SHADOW_CATCHER_BACKGROUND` is not set in the flag word at
entry, `integrator_shade_background` terminates the path (its only scheduling step is the
termination) and leaves the state as it was, whatever the shader flags table, the AO pass
setting and the feature switches. -/
theorem integrator_shade_background_terminates_without_flag {SD : Type} (ft : KernelFeatures)
    (kt : KernelTypes) (kg : KernelGlobals SD) (state : IntegratorState)
    (hflag : state.path.flag &&& kt.PATH_RAY_SHADOW_CATCHER_BACKGROUND = 0) :
    scheduled (integrator_shade_background ft kt kg state).2 = [Outcome.terminated] ∧
    (integrator_shade_background ft kt kg state).1 = state := by
  have h : ¬ (ft.SHADOW_CATCHER = true ∧
      state.path.flag &&& kt.PATH_RAY_SHADOW_CATCHER_BACKGROUND ≠ 0) := by
    simp [hflag]
  rw [integrator_shade_background_no_catcher ft kt kg state h]
  simp only [scheduled_dispatch, Call.scheduling, Option.toList, and_self]

/-- Witness for C2: a diffuse ray (flag word 8) without the shadow-catcher flag. -/
theorem integrator_shade_background_terminates_without_flag_witness :
    (exampleState 8).path.flag &&& exampleTypes.PATH_RAY_SHADOW_CATCHER_BACKGROUND = 0 ∧
    (scheduled (integrator_shade_background allFeatures exampleTypes exampleGlobals
        (exampleState 8)).2 = [Outcome.terminated] ∧
      (integrator_shade_background allFeatures exampleTypes exampleGlobals
        (exampleState 8)).1 = exampleState 8) :=
  ⟨by decide,
   integrator_shade_background_terminates_without_flag allFeatures exampleTypes
     exampleGlobals (exampleState 8) (by decide)⟩

/-- Claim C3: in a build with the shadow-catcher feature, when
`PATH_RAY_SHADOW_CATCHER_BACKGROUND` is set at entry the only scheduling step of
`integrator_shade_background` is a sorted transition whose key is the shader resolved from
the last intersection primitive, and whose stage is `SHADE_SURFACE_RAYTRACE` exactly when
that shader's flags contain `SD_HAS_RAYTRACE` or `pass_ao != PASS_UNUSED`, and
`SHADE_SURFACE` exactly when neither holds. -/
theorem integrator_shade_background_dispatch_key {SD : Type} (ft : KernelFeatures)
    (kt : KernelTypes) (kg : KernelGlobals SD) (state : IntegratorState)
    (hft : ft.SHADOW_CATCHER = true)
    (hflag : state.path.flag &&& kt.PATH_RAY_SHADOW_CATCHER_BACKGROUND ≠ 0) :
    ∃ stage : DeviceKernel,
      scheduled (integrator_shade_background ft kt kg state).2
        = [Outcome.next stage (kg.intersection_get_shader_from_isect_prim state.isect.prim)] ∧
      (stage = DeviceKernel.INTEGRATOR_SHADE_SURFACE_RAYTRACE ↔
        (kg.shaders_flags (kg.intersection_get_shader_from_isect_prim state.isect.prim)
            &&& kt.SD_HAS_RAYTRACE ≠ 0 ∨
          kg.data.film.pass_ao ≠ kt.PASS_UNUSED)) ∧
      (stage = DeviceKernel.INTEGRATOR_SHADE_SURFACE ↔
        ¬ (kg.shaders_flags (kg.intersection_get_shader_from_isect_prim state.isect.prim)
            &&& kt.SD_HAS_RAYTRACE ≠ 0 ∨
          kg.data.film.pass_ao ≠ kt.PASS_UNUSED)) := by
  rw [integrator_shade_background_catcher ft kt kg state ⟨hft, hflag⟩]
  simp only [scheduled_dispatch, Call.scheduling, Option.toList]
  refine ⟨_, rfl, ?_, ?_⟩ <;> split_ifs with hc <;> simp [hc]

/-- Witness for C3: a camera ray carrying the shadow-catcher flag; primitive 3 resolves to
shader 4, whose flags contain `SD_HAS_RAYTRACE`. -/
theorem integrator_shade_background_dispatch_key_witness :
    allFeatures.SHADOW_CATCHER = true ∧
    (exampleState (2 ^ 31 + 1)).path.flag
      &&& exampleTypes.PATH_RAY_SHADOW_CATCHER_BACKGROUND ≠ 0 ∧
    scheduled (integrator_shade_background allFeatures exampleTypes exampleGlobals
        (exampleState (2 ^ 31 + 1))).2
      = [Outcome.next DeviceKernel.INTEGRATOR_SHADE_SURFACE_RAYTRACE 4] := by
  obtain ⟨stage, hs, hrt, _⟩ :=
    integrator_shade_background_dispatch_key allFeatures exampleTypes exampleGlobals
      (exampleState (2 ^ 31 + 1)) rfl (by decide)
  have hstage : stage = DeviceKernel.INTEGRATOR_SHADE_SURFACE_RAYTRACE :=
    hrt.mpr (Or.inl (by decide))
  refine ⟨rfl, by decide, ?_⟩
  rw [hs, hstage]
  rfl

/-- Claim C4: in a build with the shadow-catcher feature, when
`PATH_RAY_SHADOW_CATCHER_BACKGROUND` (a 32-bit flag) is set at entry, the state left by
`integrator_shade_background` has the flag cleared, and a second invocation on that state
does not schedule a surface stage again: its only scheduling step is the termination. -/
theorem integrator_shade_background_flag_cleared_once {SD : Type} (ft : KernelFeatures)
    (kt : KernelTypes) (kg : KernelGlobals SD) (state : IntegratorState)
    (hft : ft.SHADOW_CATCHER = true)
    (hbit : kt.PATH_RAY_SHADOW_CATCHER_BACKGROUND < 2 ^ 32)
    (hflag : state.path.flag &&& kt.PATH_RAY_SHADOW_CATCHER_BACKGROUND ≠ 0) :
    (integrator_shade_background ft kt kg state).1.path.flag
        &&& kt.PATH_RAY_SHADOW_CATCHER_BACKGROUND = 0 ∧
    scheduled (integrator_shade_background ft kt kg
        (integrator_shade_background ft kt kg state).1).2 = [Outcome.terminated] := by
  have hclear : (integrator_shade_background ft kt kg state).1.path.flag
      &&& kt.PATH_RAY_SHADOW_CATCHER_BACKGROUND = 0 := by
    rw [integrator_shade_background_catcher ft kt kg state ⟨hft, hflag⟩]
    exact and_bitnot32_and _ _ hbit
  refine ⟨hclear, ?_⟩
  have h : ¬ (ft.SHADOW_CATCHER = true ∧
      (integrator_shade_background ft kt kg state).1.path.flag
        &&& kt.PATH_RAY_SHADOW_CATCHER_BACKGROUND ≠ 0) := by
    simp [hclear]
  rw [integrator_shade_background_no_catcher ft kt kg _ h]
  simp only [scheduled_dispatch, Call.scheduling, Option.toList]

/-- Witness for C4: the flagged camera ray of the C3 witness. -/
theorem integrator_shade_background_flag_cleared_once_witness :
    (allFeatures.SHADOW_CATCHER = true ∧
      exampleTypes.PATH_RAY_SHADOW_CATCHER_BACKGROUND < 2 ^ 32 ∧
      (exampleState (2 ^ 31 + 1)).path.flag
        &&& exampleTypes.PATH_RAY_SHADOW_CATCHER_BACKGROUND ≠ 0) ∧
    ((integrator_shade_background allFeatures exampleTypes exampleGlobals
        (exampleState (2 ^ 31 + 1))).1.path.flag
        &&& exampleTypes.PATH_RAY_SHADOW_CATCHER_BACKGROUND = 0 ∧
    scheduled (integrator_shade_background allFeatures exampleTypes exampleGlobals
        (integrator_shade_background allFeatures exampleTypes exampleGlobals
          (exampleState (2 ^ 31 + 1))).1).2 = [Outcome.terminated]) :=
  ⟨⟨rfl, by decide, by decide⟩,
   integrator_shade_background_flag_cleared_once allFeatures exampleTypes exampleGlobals
    (exampleState (2 ^ 31 + 1)) rfl (by decide) (by decide)⟩

/-! ## Visibility filter -/

/-- Claim C5: with `PATH_RAY_GLOSSY` and `PATH_RAY_REFLECT` one bit each, the visibility
test inlined in `integrator_eval_background_shader` and in `integrate_distant_lights`
reports "excluded" exactly when the shader word has some `SHADER_EXCLUDE_ANY` bit and one
of the five category tests holds (the glossy one asking for both the glossy and the
reflect ray bit).  In particular (with `SHADER_EXCLUDE_DIFFUSE` among the bits of
`SHADER_EXCLUDE_ANY`, and the camera and diffuse ray bits disjoint) a shader excluding
only the diffuse category excludes every ray with `PATH_RAY_DIFFUSE` set and does not
exclude the ray whose flag word is `PATH_RAY_CAMERA` alone. -/
theorem visibility_excluded_iff (kt : KernelTypes)
    (hG : ∃ i, kt.PATH_RAY_GLOSSY = 2 ^ i) (hR : ∃ j, kt.PATH_RAY_REFLECT = 2 ^ j)
    (hDA : kt.SHADER_EXCLUDE_DIFFUSE &&& kt.SHADER_EXCLUDE_ANY = kt.SHADER_EXCLUDE_DIFFUSE)
    (hCD : kt.PATH_RAY_CAMERA &&& kt.PATH_RAY_DIFFUSE = 0) :
    (∀ shader path_flag : Nat,
      visibility_excluded kt shader path_flag = true ↔
        (shader &&& kt.SHADER_EXCLUDE_ANY ≠ 0 ∧
          ((shader &&& kt.SHADER_EXCLUDE_DIFFUSE ≠ 0 ∧ path_flag &&& kt.PATH_RAY_DIFFUSE ≠ 0) ∨
           (shader &&& kt.SHADER_EXCLUDE_GLOSSY ≠ 0 ∧
              (path_flag &&& kt.PATH_RAY_GLOSSY ≠ 0 ∧ path_flag &&& kt.PATH_RAY_REFLECT ≠ 0)) ∨
           (shader &&& kt.SHADER_EXCLUDE_TRANSMIT ≠ 0 ∧
              path_flag &&& kt.PATH_RAY_TRANSMIT ≠ 0) ∨
           (shader &&& kt.SHADER_EXCLUDE_CAMERA ≠ 0 ∧ path_flag &&& kt.PATH_RAY_CAMERA ≠ 0) ∨
           (shader &&& kt.SHADER_EXCLUDE_SCATTER ≠ 0 ∧
              path_flag &&& kt.PATH_RAY_VOLUME_SCATTER ≠ 0)))) ∧
    (∀ shader path_flag : Nat,
      (shader &&& kt.SHADER_EXCLUDE_DIFFUSE ≠ 0 ∧ shader &&& kt.SHADER_EXCLUDE_GLOSSY = 0 ∧
        shader &&& kt.SHADER_EXCLUDE_TRANSMIT = 0 ∧ shader &&& kt.SHADER_EXCLUDE_CAMERA = 0 ∧
        shader &&& kt.SHADER_EXCLUDE_SCATTER = 0) →
      path_flag &&& kt.PATH_RAY_DIFFUSE ≠ 0 →
      visibility_excluded kt shader path_flag = true) ∧
    (∀ shader : Nat,
      (shader &&& kt.SHADER_EXCLUDE_DIFFUSE ≠ 0 ∧ shader &&& kt.SHADER_EXCLUDE_GLOSSY = 0 ∧
        shader &&& kt.SHADER_EXCLUDE_TRANSMIT = 0 ∧ shader &&& kt.SHADER_EXCLUDE_CAMERA = 0 ∧
        shader &&& kt.SHADER_EXCLUDE_SCATTER = 0) →
      visibility_excluded kt shader kt.PATH_RAY_CAMERA = false) := by
  obtain ⟨i, hi⟩ := hG
  obtain ⟨j, hj⟩ := hR
  have hglossy : ∀ path_flag : Nat,
      path_flag &&& (kt.PATH_RAY_GLOSSY ||| kt.PATH_RAY_REFLECT)
          = (kt.PATH_RAY_GLOSSY ||| kt.PATH_RAY_REFLECT) ↔
        (path_flag &&& kt.PATH_RAY_GLOSSY ≠ 0 ∧ path_flag &&& kt.PATH_RAY_REFLECT ≠ 0) := by
    intro path_flag
    rw [and_or_eq_iff, hi, hj, and_two_pow_ne_zero_iff, and_two_pow_ne_zero_iff]
  have hiff : ∀ shader path_flag : Nat,
      visibility_excluded kt shader path_flag = true ↔
        (shader &&& kt.SHADER_EXCLUDE_ANY ≠ 0 ∧
          ((shader &&& kt.SHADER_EXCLUDE_DIFFUSE ≠ 0 ∧ path_flag &&& kt.PATH_RAY_DIFFUSE ≠ 0) ∨
           (shader &&& kt.SHADER_EXCLUDE_GLOSSY ≠ 0 ∧
              (path_flag &&& kt.PATH_RAY_GLOSSY ≠ 0 ∧ path_flag &&& kt.PATH_RAY_REFLECT ≠ 0)) ∨
           (shader &&& kt.SHADER_EXCLUDE_TRANSMIT ≠ 0 ∧
              path_flag &&& kt.PATH_RAY_TRANSMIT ≠ 0) ∨
           (shader &&& kt.SHADER_EXCLUDE_CAMERA ≠ 0 ∧ path_flag &&& kt.PATH_RAY_CAMERA ≠ 0) ∨
           (shader &&& kt.SHADER_EXCLUDE_SCATTER ≠ 0 ∧
              path_flag &&& kt.PATH_RAY_VOLUME_SCATTER ≠ 0))) := by
    intro shader path_flag
    rw [← hglossy path_flag]
    unfold visibility_excluded
    by_cases hany : shader &&& kt.SHADER_EXCLUDE_ANY ≠ 0
    · rw [if_pos hany, decide_eq_true_iff]
      exact (and_iff_right hany).symm
    · rw [if_neg hany]
      simp [hany]
  refine ⟨hiff, ?_, ?_⟩
  · rintro shader path_flag ⟨hd, -⟩ hpf
    exact (hiff shader path_flag).mpr
      ⟨and_ne_zero_of_subset shader _ _ hDA hd, Or.inl ⟨hd, hpf⟩⟩
  · rintro shader ⟨-, hg, ht, hc, hs⟩
    rw [← Bool.not_eq_true, hiff]
    simp [hg, ht, hc, hs, hCD]

/-- Witness for C5: with the example constants, the shader word `2^27 + 5` (diffuse
exclusion bit and shader id 5) excludes the diffuse ray `8` and not the camera ray `1`. -/
theorem visibility_excluded_iff_witness :
    visibility_excluded exampleTypes (2 ^ 27 + 5) 8 = true ∧
    visibility_excluded exampleTypes (2 ^ 27 + 5) exampleTypes.PATH_RAY_CAMERA = false :=
  have h := visibility_excluded_iff exampleTypes ⟨4, rfl⟩ ⟨1, rfl⟩ (by decide) (by decide)
  ⟨h.2.1 (2 ^ 27 + 5) 8 (by decide) (by decide), h.2.2 (2 ^ 27 + 5) (by decide)⟩

/-! ## Background shader evaluator -/

/-- Claim C6: in a build with the background feature, when the visibility test excludes
the background shader for the path flags, `integrator_eval_background_shader` returns
`(0,0,0)` and its log is empty: no constant-emission query, no shader set-up or
evaluation and no light pdf query is made. -/
theorem integrator_eval_background_shader_excluded_is_zero {SD : Type} (ft : KernelFeatures)
    (kt : KernelTypes) (kg : KernelGlobals SD) (state : IntegratorState)
    (hB : ft.BACKGROUND = true)
    (hex : visibility_excluded kt kg.data.background.surface_shader state.path.flag = true) :
    (integrator_eval_background_shader ft kt kg state).1 = ⟨0, 0, 0⟩ ∧
    (integrator_eval_background_shader ft kt kg state).2 = [] := by
  rw [integrator_eval_background_shader_excluded ft kt kg state hB hex]
  exact ⟨rfl, rfl⟩

/-- Witness for C6: the example background excludes diffuse rays; flag word 8 is one. -/
theorem integrator_eval_background_shader_excluded_is_zero_witness :
    (allFeatures.BACKGROUND = true ∧
      visibility_excluded exampleTypes exampleGlobals.data.background.surface_shader
        (exampleState 8).path.flag = true) ∧
    ((integrator_eval_background_shader allFeatures exampleTypes exampleGlobals
        (exampleState 8)).1 = ⟨0, 0, 0⟩ ∧
     (integrator_eval_background_shader allFeatures exampleTypes exampleGlobals
        (exampleState 8)).2 = []) :=
  ⟨⟨rfl, by decide⟩,
   integrator_eval_background_shader_excluded_is_zero allFeatures exampleTypes exampleGlobals
     (exampleState 8) rfl (by decide)⟩

/-- Claim C7: in a build with the background feature, when the background shader is not
excluded and is a constant-emission shader of value `c`, `integrator_eval_background_shader`
returns exactly `c` whatever the ray origin, direction and time, and the only call it makes
is the constant-emission query (no shader set-up or evaluation).  This holds in particular
when MIS is not used. -/
theorem integrator_eval_background_shader_constant_fast_path {SD : Type}
    (ft : KernelFeatures) (kt : KernelTypes) (kg : KernelGlobals SD) (state : IntegratorState)
    (c : float3) (hB : ft.BACKGROUND = true)
    (hex : visibility_excluded kt kg.data.background.surface_shader state.path.flag = false)
    (hc : kg.shader_constant_emission_eval kg.data.background.surface_shader = some c) :
    ∀ ray : RayState,
      integrator_eval_background_shader ft kt kg { state with ray := ray }
        = (c, [Call.shader_constant_emission_eval kg.data.background.surface_shader]) := by
  intro ray
  exact integrator_eval_background_shader_constant ft kt kg { state with ray := ray } c hB hex hc

/-- Witness for C7: the constant background `(0.2, 0.3, 0.4)` with MIS off, seen by a camera
ray pointing along `-x` from `(1, 2, 3)` at time `1/2`. -/
theorem integrator_eval_background_shader_constant_fast_path_witness :
    exampleConstantGlobals.data.background.use_mis = 0 ∧
    integrator_eval_background_shader allFeatures exampleTypes exampleConstantGlobals
        { exampleState 1 with ray := ⟨⟨1, 2, 3⟩, ⟨-1, 0, 0⟩, 1 / 2⟩ }
      = (⟨1 / 5, 3 / 10, 2 / 5⟩, [Call.shader_constant_emission_eval 5]) :=
  ⟨rfl,
   integrator_eval_background_shader_constant_fast_path allFeatures exampleTypes
     exampleConstantGlobals (exampleState 1) ⟨1 / 5, 3 / 10, 2 / 5⟩ rfl (by decide) rfl
     ⟨⟨1, 2, 3⟩, ⟨-1, 0, 0⟩, 1 / 2⟩⟩

/-- Claim C8: in a build with the background feature, for a path with `PATH_RAY_MIS_SKIP`
set whose background shader is not excluded, the radiance returned by
`integrator_eval_background_shader` is the shader result itself (the constant emission, or
else `shader_background_eval` of the evaluated shader data) with no factor applied, and
`background_light_pdf` does not occur in the log; this for either setting of `use_mis`
and of the background-MIS feature. -/
theorem integrator_eval_background_shader_mis_skip {SD : Type} (ft : KernelFeatures)
    (kt : KernelTypes) (kg : KernelGlobals SD) (state : IntegratorState)
    (hB : ft.BACKGROUND = true)
    (hex : visibility_excluded kt kg.data.background.surface_shader state.path.flag = false)
    (hskip : state.path.flag &&& kt.PATH_RAY_MIS_SKIP ≠ 0) :
    (integrator_eval_background_shader ft kt kg state).1
      = (match kg.shader_constant_emission_eval kg.data.background.surface_shader with
         | some c => c
         | none =>
           kg.shader_background_eval
             (kg.shader_eval_surface state
               (kg.shader_setup_from_background state.ray.P state.ray.D state.ray.time)
               (state.path.flag ||| kt.PATH_RAY_EMISSION))) ∧
    ∀ P D : float3,
      Call.background_light_pdf P D ∉ (integrator_eval_background_shader ft kt kg state).2 := by
  cases hc : kg.shader_constant_emission_eval kg.data.background.surface_shader with
  | some c =>
    rw [integrator_eval_background_shader_constant ft kt kg state c hB hex hc]
    exact ⟨rfl, fun P D => by simp⟩
  | none =>
    have hmis : ¬ (ft.BACKGROUND_MIS = true ∧ state.path.flag &&& kt.PATH_RAY_MIS_SKIP = 0 ∧
        kg.data.background.use_mis ≠ 0) := fun h => hskip h.2.1
    rw [integrator_eval_background_shader_graph ft kt kg state hB hex hc hmis]
    exact ⟨rfl, fun P D => by simp⟩

/-- Witness for C8: a camera ray with `PATH_RAY_MIS_SKIP` (flag word `2^11 + 1`) in the
example scene, where MIS is enabled: the radiance is the shader result `(0, 0, 1)` and the
light pdf is not queried. -/
theorem integrator_eval_background_shader_mis_skip_witness :
    (exampleGlobals.data.background.use_mis ≠ 0 ∧
      (exampleState (2 ^ 11 + 1)).path.flag &&& exampleTypes.PATH_RAY_MIS_SKIP ≠ 0) ∧
    ((integrator_eval_background_shader allFeatures exampleTypes exampleGlobals
        (exampleState (2 ^ 11 + 1))).1 = ⟨0, 0, 1⟩ ∧
     ∀ P D : float3,
      Call.background_light_pdf P D ∉
        (integrator_eval_background_shader allFeatures exampleTypes exampleGlobals
          (exampleState (2 ^ 11 + 1))).2) :=
  ⟨⟨by decide, by decide⟩,
   integrator_eval_background_shader_mis_skip allFeatures exampleTypes exampleGlobals
     (exampleState (2 ^ 11 + 1)) rfl (by decide) (by decide)⟩

/-- Claim C9: in a build with the background and background-MIS features, for a path whose
background shader is not excluded and not a constant emission, with `use_mis` enabled and
`PATH_RAY_MIS_SKIP` clear, `integrator_eval_background_shader` returns
`L * power_heuristic(mis_ray_pdf, pdf)`, where `L` is `shader_background_eval` of the
evaluated shader data and `pdf = background_light_pdf(ray_P - ray_D * mis_ray_t, ray_D)`;
the query point is the ray origin moved back by `mis_ray_t` along the direction, and that
query is the last call in the log. -/
theorem integrator_eval_background_shader_mis_weight {SD : Type} (ft : KernelFeatures)
    (kt : KernelTypes) (kg : KernelGlobals SD) (state : IntegratorState)
    (hB : ft.BACKGROUND = true) (hM : ft.BACKGROUND_MIS = true)
    (hex : visibility_excluded kt kg.data.background.surface_shader state.path.flag = false)
    (hc : kg.shader_constant_emission_eval kg.data.background.surface_shader = none)
    (huse : kg.data.background.use_mis ≠ 0)
    (hskip : state.path.flag &&& kt.PATH_RAY_MIS_SKIP = 0) :
    (integrator_eval_background_shader ft kt kg state).1
      = kg.shader_background_eval
          (kg.shader_eval_surface state
            (kg.shader_setup_from_background state.ray.P state.ray.D state.ray.time)
            (state.path.flag ||| kt.PATH_RAY_EMISSION)) *
        power_heuristic state.path.mis_ray_pdf
          (kg.background_light_pdf (state.ray.P - state.ray.D * state.path.mis_ray_t)
            state.ray.D) ∧
    state.ray.P - state.ray.D * state.path.mis_ray_t
      = ⟨state.ray.P.x - state.ray.D.x * state.path.mis_ray_t,
         state.ray.P.y - state.ray.D.y * state.path.mis_ray_t,
         state.ray.P.z - state.ray.D.z * state.path.mis_ray_t⟩ ∧
    (integrator_eval_background_shader ft kt kg state).2.getLast?
      = some (Call.background_light_pdf
          (state.ray.P - state.ray.D * state.path.mis_ray_t) state.ray.D) := by
  rw [integrator_eval_background_shader_graph_mis ft kt kg state hB hex hc ⟨hM, hskip, huse⟩]
  exact ⟨rfl, rfl, rfl⟩

/-- Witness for C9: a camera ray (flag word 1) in the example scene: `L = (0, 0, 1)`, both
pdfs are 1, so the result is `(0, 0, 1/2)`; the pdf is queried at `(0, 0, -2)`. -/
theorem integrator_eval_background_shader_mis_weight_witness :
    (integrator_eval_background_shader allFeatures exampleTypes exampleGlobals
        (exampleState 1)).1 = ⟨0, 0, 1 / 2⟩ ∧
    (integrator_eval_background_shader allFeatures exampleTypes exampleGlobals
        (exampleState 1)).2.getLast?
      = some (Call.background_light_pdf ⟨0, 0, -2⟩ ⟨0, 0, 1⟩) := by
  have h := integrator_eval_background_shader_mis_weight allFeatures exampleTypes
    exampleGlobals (exampleState 1) rfl rfl (by decide) rfl (by decide) (by decide)
  refine ⟨h.1.trans ?_, h.2.2.trans ?_⟩
  · simp only [exampleGlobals, exampleState, power_heuristic, float3_scale_def]
    norm_num
  · simp only [exampleGlobals, exampleState, float3_scale_def, float3_sub_def]
    norm_num

/-! ## Power heuristic -/

/-- Claim C10: the power heuristic used for MIS weighting returns `0` when both pdfs are
zero, `weight(0, 0) = 0`: the degenerate case is answered by the guard and not by the
quotient `a² / (a² + b²)`, whose denominator vanishes there. -/
theorem power_heuristic_zero_zero : power_heuristic 0 0 = 0 := by
  simp [power_heuristic]

/-- Claim C11: for every pdf `p > 0` the power heuristic gives `weight(p, 0) = 1`. -/
theorem power_heuristic_zero_competitor (p : ℚ) (hp : 0 < p) : power_heuristic p 0 = 1 := by
  have hne : p ≠ 0 := ne_of_gt hp
  have hpp : p * p ≠ 0 := mul_ne_zero hne hne
  simp [power_heuristic, hne, hpp]

/-- Witness for C11: the pdf `3/2`. -/
theorem power_heuristic_zero_competitor_witness :
    (0 : ℚ) < 3 / 2 ∧ power_heuristic (3 / 2) 0 = 1 :=
  ⟨by norm_num, power_heuristic_zero_competitor (3 / 2) (by norm_num)⟩

/-- Claim C12: for all pdfs `a`, `b` with `a + b > 0` the two weights sum to one,
`weight(a, b) = 1 - weight(b, a)`, and consequently `weight(p, p) = 1/2` when the two
pdfs are the same `p`. -/
theorem power_heuristic_complement (a b : ℚ) (hab : 0 < a + b) :
    power_heuristic a b = 1 - power_heuristic b a ∧
    (a = b → power_heuristic a b = 1 / 2) := by
  have hnz : ¬ (a = 0 ∧ b = 0) := by
    rintro ⟨ha, hb⟩
    rw [ha, hb] at hab
    norm_num at hab
  have hnz2 : ¬ (b = 0 ∧ a = 0) := fun h => hnz ⟨h.2, h.1⟩
  have hden : a * a + b * b ≠ 0 := by
    intro h
    have ha2 : a * a = 0 := by nlinarith [mul_self_nonneg a, mul_self_nonneg b]
    have hb2 : b * b = 0 := by nlinarith [mul_self_nonneg a, mul_self_nonneg b]
    exact hnz ⟨mul_self_eq_zero.mp ha2, mul_self_eq_zero.mp hb2⟩
  have hsum : power_heuristic a b = 1 - power_heuristic b a := by
    simp only [power_heuristic, if_neg hnz, if_neg hnz2]
    rw [eq_sub_iff_add_eq, add_comm (b * b) (a * a), ← add_div, div_self hden]
  refine ⟨hsum, ?_⟩
  intro heq
  subst heq
  linarith

/-- Witness for C12: the pdfs `2` and `1` (weights `4/5` and `1/5`). -/
theorem power_heuristic_complement_witness :
    (0 : ℚ) < 2 + 1 ∧ power_heuristic 2 1 = 1 - power_heuristic 1 2 :=
  ⟨by norm_num, (power_heuristic_complement 2 1 (by norm_num)).1⟩

/-! ## Lemmas on the distant-light loop -/

theorem integrate_distant_lights_returns_miss {SD : Type} (ft : KernelFeatures)
    (kt : KernelTypes) (kg : KernelGlobals SD) (state : IntegratorState) (n lamp : Nat)
    (hls : kg.light_sample_from_distant_ray state.ray.D lamp = none) :
    integrate_distant_lights_returns ft kt kg state (n + 1) lamp
      = integrate_distant_lights_returns ft kt kg state n (lamp + 1) := by
  simp [integrate_distant_lights_returns, hls]

theorem integrate_distant_lights_returns_excluded {SD : Type} (ft : KernelFeatures)
    (kt : KernelTypes) (kg : KernelGlobals SD) (state : IntegratorState) (n lamp : Nat)
    (ls : LightSample)
    (hls : kg.light_sample_from_distant_ray state.ray.D lamp = some ls)
    (hex : ft.PASSES = true ∧ visibility_excluded kt ls.shader state.path.flag = true) :
    integrate_distant_lights_returns ft kt kg state (n + 1) lamp = true := by
  simp only [integrate_distant_lights_returns, hls, if_pos hex]

theorem integrate_distant_lights_returns_zero_eval {SD : Type} (ft : KernelFeatures)
    (kt : KernelTypes) (kg : KernelGlobals SD) (state : IntegratorState) (n lamp : Nat)
    (ls : LightSample)
    (hls : kg.light_sample_from_distant_ray state.ray.D lamp = some ls)
    (hz : is_zero (kg.light_sample_shader_eval state ls state.ray.time) = true) :
    integrate_distant_lights_returns ft kt kg state (n + 1) lamp = true := by
  simp only [integrate_distant_lights_returns, hls, hz, if_true, ite_self]

theorem integrate_distant_lights_returns_accum {SD : Type} (ft : KernelFeatures)
    (kt : KernelTypes) (kg : KernelGlobals SD) (state : IntegratorState) (n lamp : Nat)
    (ls : LightSample)
    (hls : kg.light_sample_from_distant_ray state.ray.D lamp = some ls)
    (hex : ¬ (ft.PASSES = true ∧ visibility_excluded kt ls.shader state.path.flag = true))
    (hz : is_zero (kg.light_sample_shader_eval state ls state.ray.time) = false) :
    integrate_distant_lights_returns ft kt kg state (n + 1) lamp
      = integrate_distant_lights_returns ft kt kg state n (lamp + 1) := by
  simp only [integrate_distant_lights_returns, hls, if_neg hex, hz, Bool.false_eq_true,
    if_false]

/-- Splitting the loop after `a` iterations: the remaining `b` iterations run only if no
`return` was executed before. -/
theorem integrate_distant_lights_loop_add {SD : Type} (ft : KernelFeatures)
    (kt : KernelTypes) (kg : KernelGlobals SD) (state : IntegratorState) (a b lamp : Nat) :
    integrate_distant_lights_loop ft kt kg state (a + b) lamp
      = integrate_distant_lights_loop ft kt kg state a lamp ++
          (if integrate_distant_lights_returns ft kt kg state a lamp = true then []
           else integrate_distant_lights_loop ft kt kg state b (lamp + a)) := by
  induction a generalizing lamp with
  | zero =>
    simp [integrate_distant_lights_loop_zero, integrate_distant_lights_returns]
  | succ a ih =>
    have hab : a + 1 + b = (a + b) + 1 := by omega
    have hidx : lamp + (a + 1) = lamp + 1 + a := by omega
    rw [hab, hidx]
    cases hls : kg.light_sample_from_distant_ray state.ray.D lamp with
    | none =>
      rw [integrate_distant_lights_loop_miss ft kt kg state (a + b) lamp hls,
        integrate_distant_lights_loop_miss ft kt kg state a lamp hls,
        integrate_distant_lights_returns_miss ft kt kg state a lamp hls, ih (lamp + 1)]
      rfl
    | some ls =>
      by_cases hex : ft.PASSES = true ∧ visibility_excluded kt ls.shader state.path.flag = true
      · rw [integrate_distant_lights_loop_excluded ft kt kg state (a + b) lamp ls hls hex.1 hex.2,
          integrate_distant_lights_loop_excluded ft kt kg state a lamp ls hls hex.1 hex.2,
          integrate_distant_lights_returns_excluded ft kt kg state a lamp ls hls hex]
        rfl
      · cases hz : is_zero (kg.light_sample_shader_eval state ls state.ray.time)
        · rw [integrate_distant_lights_loop_accum ft kt kg state (a + b) lamp ls hls hex hz,
            integrate_distant_lights_loop_accum ft kt kg state a lamp ls hls hex hz,
            integrate_distant_lights_returns_accum ft kt kg state a lamp ls hls hex hz,
            ih (lamp + 1)]
          rfl
        · rw [integrate_distant_lights_loop_zero_eval ft kt kg state (a + b) lamp ls hls hex hz,
            integrate_distant_lights_loop_zero_eval ft kt kg state a lamp ls hls hex hz,
            integrate_distant_lights_returns_zero_eval ft kt kg state a lamp ls hls hz]
          rfl

/-- The hit tests logged by `n` iterations from light `lamp` concern the lights
`lamp, …, lamp + n - 1` only. -/
theorem light_test_index_of_mem_loop {SD : Type} (ft : KernelFeatures)
    (kt : KernelTypes) (kg : KernelGlobals SD) (state : IntegratorState) (n lamp j : Nat)
    (D : float3)
    (h : Call.light_sample_from_distant_ray D j
      ∈ integrate_distant_lights_loop ft kt kg state n lamp) :
    lamp ≤ j ∧ j < lamp + n := by
  induction n generalizing lamp with
  | zero =>
    rw [integrate_distant_lights_loop_zero] at h
    simp at h
  | succ n ih =>
    cases hls : kg.light_sample_from_distant_ray state.ray.D lamp with
    | none =>
      rw [integrate_distant_lights_loop_miss ft kt kg state n lamp hls] at h
      simp only [List.mem_cons, Call.light_sample_from_distant_ray.injEq] at h
      rcases h with ⟨-, rfl⟩ | h
      · omega
      · have := ih (lamp + 1) h
        omega
    | some ls =>
      by_cases hex : ft.PASSES = true ∧ visibility_excluded kt ls.shader state.path.flag = true
      · rw [integrate_distant_lights_loop_excluded ft kt kg state n lamp ls hls hex.1 hex.2] at h
        simp only [List.mem_singleton, Call.light_sample_from_distant_ray.injEq] at h
        omega
      · cases hz : is_zero (kg.light_sample_shader_eval state ls state.ray.time)
        · rw [integrate_distant_lights_loop_accum ft kt kg state n lamp ls hls hex hz] at h
          simp only [List.mem_cons, Call.light_sample_from_distant_ray.injEq, reduceCtorEq,
            false_or] at h
          rcases h with ⟨-, rfl⟩ | h
          · omega
          · have := ih (lamp + 1) h
            omega
        · rw [integrate_distant_lights_loop_zero_eval ft kt kg state n lamp ls hls hex hz] at h
          simp only [List.mem_cons, Call.light_sample_from_distant_ray.injEq, reduceCtorEq,
            List.mem_nil_iff, or_false] at h
          omega

/-- The whole function, split at a light `k` below `num_all_lights`. -/
theorem integrate_distant_lights_split {SD : Type} (ft : KernelFeatures)
    (kt : KernelTypes) (kg : KernelGlobals SD) (state : IntegratorState) (k : Nat)
    (hk : k < kg.data.integrator.num_all_lights.toNat) :
    integrate_distant_lights ft kt kg state
      = integrate_distant_lights_loop ft kt kg state k 0 ++
          (if integrate_distant_lights_returns ft kt kg state k 0 = true then []
           else integrate_distant_lights_loop ft kt kg state
             (kg.data.integrator.num_all_lights.toNat - k - 1 + 1) k) := by
  have hN : kg.data.integrator.num_all_lights.toNat
      = k + (kg.data.integrator.num_all_lights.toNat - k - 1 + 1) := by omega
  unfold integrate_distant_lights
  rw [hN, integrate_distant_lights_loop_add, Nat.zero_add, ← hN]

theorem emission_writes_append (a b : List Call) :
    emission_writes (a ++ b) = emission_writes a ++ emission_writes b := by
  simp [emission_writes, List.filterMap_append]

theorem emission_writes_nil : emission_writes [] = [] := rfl

theorem emission_writes_light_test (D : float3) (j : Nat) (l : List Call) :
    emission_writes (Call.light_sample_from_distant_ray D j :: l) = emission_writes l := by
  simp [emission_writes, List.filterMap_cons]

theorem emission_writes_light_eval (ls : LightSample) (t : ℚ) (l : List Call) :
    emission_writes (Call.light_sample_shader_eval ls t :: l) = emission_writes l := by
  simp [emission_writes, List.filterMap_cons]

theorem emission_writes_accum (throughput L : float3) (l : List Call) :
    emission_writes (Call.kernel_accum_emission throughput L :: l)
      = (throughput, L) :: emission_writes l := by
  simp [emission_writes, List.filterMap_cons]

/-! ## Distant light accumulator -/

/-- Claim C13, as amended: in a scene with two distant lights that both intersect the ray,
are both not excluded by the visibility test and both evaluate to nonzero emission,
`integrate_distant_lights` accumulates the contribution of the first light and then the
contribution of the second light (each weighted by the power heuristic unless
`PATH_RAY_MIS_SKIP` is set). -/
theorem integrate_distant_lights_two_lights_both_contribute {SD : Type} (ft : KernelFeatures)
    (kt : KernelTypes) (kg : KernelGlobals SD) (state : IntegratorState)
    (ls0 ls1 : LightSample)
    (hN : kg.data.integrator.num_all_lights = 2)
    (h0 : kg.light_sample_from_distant_ray state.ray.D 0 = some ls0)
    (h1 : kg.light_sample_from_distant_ray state.ray.D 1 = some ls1)
    (hv0 : ¬ (ft.PASSES = true ∧ visibility_excluded kt ls0.shader state.path.flag = true))
    (hv1 : ¬ (ft.PASSES = true ∧ visibility_excluded kt ls1.shader state.path.flag = true))
    (hz0 : is_zero (kg.light_sample_shader_eval state ls0 state.ray.time) = false)
    (hz1 : is_zero (kg.light_sample_shader_eval state ls1 state.ray.time) = false) :
    emission_writes (integrate_distant_lights ft kt kg state)
      = [(state.path.throughput,
            if state.path.flag &&& kt.PATH_RAY_MIS_SKIP = 0 then
              kg.light_sample_shader_eval state ls0 state.ray.time *
                power_heuristic state.path.mis_ray_pdf ls0.pdf
            else kg.light_sample_shader_eval state ls0 state.ray.time),
         (state.path.throughput,
            if state.path.flag &&& kt.PATH_RAY_MIS_SKIP = 0 then
              kg.light_sample_shader_eval state ls1 state.ray.time *
                power_heuristic state.path.mis_ray_pdf ls1.pdf
            else kg.light_sample_shader_eval state ls1 state.ray.time)] := by
  have hN2 : kg.data.integrator.num_all_lights.toNat = 1 + 1 := by rw [hN]; rfl
  unfold integrate_distant_lights
  rw [hN2, integrate_distant_lights_loop_accum ft kt kg state 1 0 ls0 h0 hv0 hz0,
    integrate_distant_lights_loop_accum ft kt kg state 0 1 ls1 h1 hv1 hz1,
    integrate_distant_lights_loop_zero]
  simp only [emission_writes_light_test, emission_writes_light_eval, emission_writes_accum,
    emission_writes_nil]

/-- Witness for the amended C13: the red and the green light of `exampleTwoLights`, seen
by a camera ray with `PATH_RAY_MIS_SKIP` set: both colours are written. -/
theorem integrate_distant_lights_two_lights_both_contribute_witness :
    emission_writes (integrate_distant_lights allFeatures exampleTypes exampleTwoLights
        (exampleState (2 ^ 11 + 1)))
      = [(⟨1 / 2, 1 / 2, 1 / 2⟩, ⟨1, 0, 0⟩), (⟨1 / 2, 1 / 2, 1 / 2⟩, ⟨0, 1, 0⟩)] := by
  have h := integrate_distant_lights_two_lights_both_contribute allFeatures exampleTypes
    exampleTwoLights (exampleState (2 ^ 11 + 1)) ⟨7, 1, 0⟩ ⟨7, 1, 1⟩ rfl rfl rfl
    (by decide) (by decide) (by simp [exampleTwoLights, is_zero])
    (by simp [exampleTwoLights, is_zero])
  rw [h]
  have hskip : ¬ ((exampleState (2 ^ 11 + 1)).path.flag &&& exampleTypes.PATH_RAY_MIS_SKIP = 0) := by
    decide
  simp only [if_neg hskip]
  rfl

/-- Counterexample to C13 as stated: in `exampleTwoLights` both lights are hit and both
evaluate to nonzero emission, yet the writes to the render buffer are the contribution
of the first light followed by the contribution of the second, not the first alone. -/
theorem integrate_distant_lights_only_first_counterexample :
    (exampleTwoLights.light_sample_from_distant_ray (exampleState (2 ^ 11 + 1)).ray.D 0
        = some ⟨7, 1, 0⟩ ∧
      exampleTwoLights.light_sample_from_distant_ray (exampleState (2 ^ 11 + 1)).ray.D 1
        = some ⟨7, 1, 1⟩ ∧
      exampleTwoLights.light_sample_shader_eval (exampleState (2 ^ 11 + 1)) ⟨7, 1, 0⟩ 0
        = ⟨1, 0, 0⟩ ∧
      exampleTwoLights.light_sample_shader_eval (exampleState (2 ^ 11 + 1)) ⟨7, 1, 1⟩ 0
        = ⟨0, 1, 0⟩) ∧
    emission_writes (integrate_distant_lights allFeatures exampleTypes exampleTwoLights
        (exampleState (2 ^ 11 + 1)))
      = [(⟨1 / 2, 1 / 2, 1 / 2⟩, ⟨1, 0, 0⟩), (⟨1 / 2, 1 / 2, 1 / 2⟩, ⟨0, 1, 0⟩)] ∧
    emission_writes (integrate_distant_lights allFeatures exampleTypes exampleTwoLights
        (exampleState (2 ^ 11 + 1)))
      ≠ [(⟨1 / 2, 1 / 2, 1 / 2⟩, ⟨1, 0, 0⟩)] := by
  have hz0 : is_zero (exampleTwoLights.light_sample_shader_eval (exampleState (2 ^ 11 + 1))
      ⟨7, 1, 0⟩ (exampleState (2 ^ 11 + 1)).ray.time) = false := by
    simp [exampleTwoLights, is_zero]
  have hz1 : is_zero (exampleTwoLights.light_sample_shader_eval (exampleState (2 ^ 11 + 1))
      ⟨7, 1, 1⟩ (exampleState (2 ^ 11 + 1)).ray.time) = false := by
    simp [exampleTwoLights, is_zero]
  have hlog : emission_writes (integrate_distant_lights allFeatures exampleTypes
      exampleTwoLights (exampleState (2 ^ 11 + 1)))
      = [(⟨1 / 2, 1 / 2, 1 / 2⟩, ⟨1, 0, 0⟩), (⟨1 / 2, 1 / 2, 1 / 2⟩, ⟨0, 1, 0⟩)] := by
    have hN2 : exampleTwoLights.data.integrator.num_all_lights.toNat = 1 + 1 := rfl
    unfold integrate_distant_lights
    rw [hN2, integrate_distant_lights_loop_accum allFeatures exampleTypes exampleTwoLights
        (exampleState (2 ^ 11 + 1)) 1 0 ⟨7, 1, 0⟩ rfl (by decide) hz0,
      integrate_distant_lights_loop_accum allFeatures exampleTypes exampleTwoLights
        (exampleState (2 ^ 11 + 1)) 0 1 ⟨7, 1, 1⟩ rfl (by decide) hz1,
      integrate_distant_lights_loop_zero]
    simp only [emission_writes_light_test, emission_writes_light_eval, emission_writes_accum,
      emission_writes_nil]
    have hskip : ¬ ((exampleState (2 ^ 11 + 1)).path.flag
        &&& exampleTypes.PATH_RAY_MIS_SKIP = 0) := by decide
    simp only [if_neg hskip]
    rfl
  refine ⟨⟨rfl, rfl, rfl, rfl⟩, hlog, ?_⟩
  rw [hlog]
  simp

/-- Claim C14: in a build with the passes feature, let light `k` (below `num_all_lights`)
hit the ray with a shader that the visibility test excludes for the path flags.  Then the
loop, once at light `k`, logs the hit test of `k` and nothing else (no shader evaluation,
no accumulation, no later iteration); the log of the whole function is the log of the
iterations over the lights before `k`, followed by that hit test unless the function had
returned already; no light after `k` is tested; and the emission writes are those made
for the lights before `k`. -/
theorem integrate_distant_lights_returns_at_excluded {SD : Type} (ft : KernelFeatures)
    (kt : KernelTypes) (kg : KernelGlobals SD) (state : IntegratorState) (k : Nat)
    (ls : LightSample)
    (hP : ft.PASSES = true)
    (hk : k < kg.data.integrator.num_all_lights.toNat)
    (hls : kg.light_sample_from_distant_ray state.ray.D k = some ls)
    (hex : visibility_excluded kt ls.shader state.path.flag = true) :
    (∀ n : Nat, integrate_distant_lights_loop ft kt kg state (n + 1) k
        = [Call.light_sample_from_distant_ray state.ray.D k]) ∧
    integrate_distant_lights ft kt kg state
      = integrate_distant_lights_loop ft kt kg state k 0 ++
          (if integrate_distant_lights_returns ft kt kg state k 0 = true then []
           else [Call.light_sample_from_distant_ray state.ray.D k]) ∧
    (∀ (D : float3) (j : Nat), k < j →
      Call.light_sample_from_distant_ray D j ∉ integrate_distant_lights ft kt kg state) ∧
    emission_writes (integrate_distant_lights ft kt kg state)
      = emission_writes (integrate_distant_lights_loop ft kt kg state k 0) := by
  have hloc : ∀ n : Nat, integrate_distant_lights_loop ft kt kg state (n + 1) k
      = [Call.light_sample_from_distant_ray state.ray.D k] :=
    fun n => integrate_distant_lights_loop_excluded ft kt kg state n k ls hls hP hex
  have hsplit : integrate_distant_lights ft kt kg state
      = integrate_distant_lights_loop ft kt kg state k 0 ++
          (if integrate_distant_lights_returns ft kt kg state k 0 = true then []
           else [Call.light_sample_from_distant_ray state.ray.D k]) := by
    rw [integrate_distant_lights_split ft kt kg state k hk, hloc]
  refine ⟨hloc, hsplit, ?_, ?_⟩
  · intro D j hj hmem
    rw [hsplit, List.mem_append] at hmem
    rcases hmem with hmem | hmem
    · have := light_test_index_of_mem_loop ft kt kg state k 0 j D hmem
      omega
    · split_ifs at hmem
      · simp at hmem
      · simp only [List.mem_singleton, Call.light_sample_from_distant_ray.injEq] at hmem
        omega
  · rw [hsplit, emission_writes_append]
    split_ifs
    · simp [emission_writes_nil]
    · simp [emission_writes_light_test, emission_writes_nil]

/-- Witness for C14: in `exampleBlockedLights` light 0 has a camera-excluding shader; for
a camera ray the whole log is the hit test of light 0. -/
theorem integrate_distant_lights_returns_at_excluded_witness :
    integrate_distant_lights allFeatures exampleTypes exampleBlockedLights (exampleState 1)
      = [Call.light_sample_from_distant_ray ⟨0, 0, 1⟩ 0] ∧
    emission_writes
        (integrate_distant_lights allFeatures exampleTypes exampleBlockedLights (exampleState 1))
      = [] := by
  have h := integrate_distant_lights_returns_at_excluded allFeatures exampleTypes
    exampleBlockedLights (exampleState 1) 0 ⟨2 ^ 24 + 7, 1, 0⟩ rfl (by decide) rfl (by decide)
  exact ⟨h.2.1, h.2.2.2⟩

/-- Claim C15: let light `k` (below `num_all_lights`) hit the ray, pass the visibility
test and evaluate to exactly zero.  Then the loop, once at light `k`, logs the hit test and
the shader evaluation of `k` and nothing else; the log of the whole function is the log of
the iterations over the lights before `k`, followed by these two calls unless the function
had returned already; no light after `k` is tested; the emission writes are those made
for the lights before `k`; and what the loop does at light `k` is unchanged when
`mis_ray_pdf` is replaced by any other value that leaves the light's shader evaluation the
same. -/
theorem integrate_distant_lights_returns_at_zero {SD : Type} (ft : KernelFeatures)
    (kt : KernelTypes) (kg : KernelGlobals SD) (state : IntegratorState) (k : Nat)
    (ls : LightSample)
    (hk : k < kg.data.integrator.num_all_lights.toNat)
    (hls : kg.light_sample_from_distant_ray state.ray.D k = some ls)
    (hvis : ¬ (ft.PASSES = true ∧ visibility_excluded kt ls.shader state.path.flag = true))
    (hz : is_zero (kg.light_sample_shader_eval state ls state.ray.time) = true) :
    (∀ n : Nat, integrate_distant_lights_loop ft kt kg state (n + 1) k
        = [Call.light_sample_from_distant_ray state.ray.D k,
           Call.light_sample_shader_eval ls state.ray.time]) ∧
    integrate_distant_lights ft kt kg state
      = integrate_distant_lights_loop ft kt kg state k 0 ++
          (if integrate_distant_lights_returns ft kt kg state k 0 = true then []
           else [Call.light_sample_from_distant_ray state.ray.D k,
                 Call.light_sample_shader_eval ls state.ray.time]) ∧
    (∀ (D : float3) (j : Nat), k < j →
      Call.light_sample_from_distant_ray D j ∉ integrate_distant_lights ft kt kg state) ∧
    emission_writes (integrate_distant_lights ft kt kg state)
      = emission_writes (integrate_distant_lights_loop ft kt kg state k 0) ∧
    (∀ (q : ℚ) (n : Nat),
      kg.light_sample_shader_eval
          { state with path := { state.path with mis_ray_pdf := q } } ls state.ray.time
        = kg.light_sample_shader_eval state ls state.ray.time →
      integrate_distant_lights_loop ft kt kg
          { state with path := { state.path with mis_ray_pdf := q } } (n + 1) k
        = integrate_distant_lights_loop ft kt kg state (n + 1) k) := by
  have hloc : ∀ n : Nat, integrate_distant_lights_loop ft kt kg state (n + 1) k
      = [Call.light_sample_from_distant_ray state.ray.D k,
         Call.light_sample_shader_eval ls state.ray.time] :=
    fun n => integrate_distant_lights_loop_zero_eval ft kt kg state n k ls hls hvis hz
  have hsplit : integrate_distant_lights ft kt kg state
      = integrate_distant_lights_loop ft kt kg state k 0 ++
          (if integrate_distant_lights_returns ft kt kg state k 0 = true then []
           else [Call.light_sample_from_distant_ray state.ray.D k,
                 Call.light_sample_shader_eval ls state.ray.time]) := by
    rw [integrate_distant_lights_split ft kt kg state k hk, hloc]
  refine ⟨hloc, hsplit, ?_, ?_, ?_⟩
  · intro D j hj hmem
    rw [hsplit, List.mem_append] at hmem
    rcases hmem with hmem | hmem
    · have := light_test_index_of_mem_loop ft kt kg state k 0 j D hmem
      omega
    · split_ifs at hmem
      · simp at hmem
      · simp only [List.mem_cons, Call.light_sample_from_distant_ray.injEq, reduceCtorEq,
          List.mem_nil_iff, or_false] at hmem
        omega
  · rw [hsplit, emission_writes_append]
    split_ifs
    · simp [emission_writes_nil]
    · simp [emission_writes_light_test, emission_writes_light_eval, emission_writes_nil]
  · intro q n hq
    rw [hloc n]
    exact integrate_distant_lights_loop_zero_eval ft kt kg
      { state with path := { state.path with mis_ray_pdf := q } } n k ls hls hvis
      (by rw [hq]; exact hz)

/-- Witness for C15: `exampleGlobals` with a black light 0 (its evaluation is zero): for a
camera ray the log is the hit test and the shader evaluation of light 0. -/
theorem integrate_distant_lights_returns_at_zero_witness :
    integrate_distant_lights allFeatures exampleTypes
        { exampleTwoLights with light_sample_shader_eval := fun _ _ _ => ⟨0, 0, 0⟩ }
        (exampleState 1)
      = [Call.light_sample_from_distant_ray ⟨0, 0, 1⟩ 0,
         Call.light_sample_shader_eval ⟨7, 1, 0⟩ 0] := by
  have h := integrate_distant_lights_returns_at_zero allFeatures exampleTypes
    { exampleTwoLights with light_sample_shader_eval := fun _ _ _ => ⟨0, 0, 0⟩ }
    (exampleState 1) 0 ⟨7, 1, 0⟩ (by decide) rfl (by decide) (by simp [is_zero])
  exact h.2.1

/-- Claim C16, the code at the failing input: in `exampleBlockedLights`, for a camera ray,
light 1 is hit, its shader is not excluded and its emission `(0, 1, 0)` is nonzero, but
`integrate_distant_lights` leaves through the `return` taken for the excluded light 0:
its log is the hit test of light 0 and no emission is written for light 1. -/
theorem integrate_distant_lights_skips_visible_light :
    exampleBlockedLights.data.integrator.num_all_lights = 2 ∧
    exampleBlockedLights.light_sample_from_distant_ray (exampleState 1).ray.D 1
      = some ⟨7, 1, 1⟩ ∧
    visibility_excluded exampleTypes 7 (exampleState 1).path.flag = false ∧
    exampleBlockedLights.light_sample_shader_eval (exampleState 1) ⟨7, 1, 1⟩
        (exampleState 1).ray.time = ⟨0, 1, 0⟩ ∧
    is_zero (exampleBlockedLights.light_sample_shader_eval (exampleState 1) ⟨7, 1, 1⟩
        (exampleState 1).ray.time) = false ∧
    integrate_distant_lights allFeatures exampleTypes exampleBlockedLights (exampleState 1)
      = [Call.light_sample_from_distant_ray ⟨0, 0, 1⟩ 0] ∧
    emission_writes
        (integrate_distant_lights allFeatures exampleTypes exampleBlockedLights (exampleState 1))
      = [] := by
  have hlog : integrate_distant_lights allFeatures exampleTypes exampleBlockedLights
      (exampleState 1) = [Call.light_sample_from_distant_ray ⟨0, 0, 1⟩ 0] := by
    have hN2 : exampleBlockedLights.data.integrator.num_all_lights.toNat = 1 + 1 := rfl
    unfold integrate_distant_lights
    rw [hN2, integrate_distant_lights_loop_excluded allFeatures exampleTypes
      exampleBlockedLights (exampleState 1) 1 0 ⟨2 ^ 24 + 7, 1, 0⟩ rfl rfl (by decide)]
    rfl
  refine ⟨rfl, rfl, by decide, rfl, ?_, hlog, ?_⟩
  · simp [exampleBlockedLights, exampleTwoLights, is_zero]
  · rw [hlog]
    rfl

/-! ## Lemmas on the background write -/

theorem background_writes_append (a b : List Call) :
    background_writes (a ++ b) = background_writes a ++ background_writes b := by
  simp [background_writes, List.filterMap_append]

theorem background_writes_accum (L : float3) (t : ℚ) (b : Bool) :
    background_writes [Call.kernel_accum_background L t b] = [(L, t, b)] := rfl

theorem background_writes_integrator_eval_background_shader {SD : Type} (ft : KernelFeatures)
    (kt : KernelTypes) (kg : KernelGlobals SD) (state : IntegratorState) :
    background_writes (integrator_eval_background_shader ft kt kg state).2 = [] := by
  cases hB : ft.BACKGROUND
  · rw [integrator_eval_background_shader_disabled ft kt kg state hB]; rfl
  cases hex : visibility_excluded kt kg.data.background.surface_shader state.path.flag
  swap
  · rw [integrator_eval_background_shader_excluded ft kt kg state hB hex]; rfl
  cases hc : kg.shader_constant_emission_eval kg.data.background.surface_shader with
  | some c => rw [integrator_eval_background_shader_constant ft kt kg state c hB hex hc]; rfl
  | none =>
    by_cases hmis : ft.BACKGROUND_MIS = true ∧ state.path.flag &&& kt.PATH_RAY_MIS_SKIP = 0 ∧
      kg.data.background.use_mis ≠ 0
    · rw [integrator_eval_background_shader_graph_mis ft kt kg state hB hex hc hmis]; rfl
    · rw [integrator_eval_background_shader_graph ft kt kg state hB hex hc hmis]; rfl

theorem zero_float3_scale (f : ℚ) : zero_float3 * f = zero_float3 := by
  simp [float3_scale_def, zero_float3]

/-- The body of `integrate_background` with its local variables substituted. -/
theorem integrate_background_unfold {SD : Type} (ft : KernelFeatures) (kt : KernelTypes)
    (kg : KernelGlobals SD) (state : IntegratorState) :
    integrate_background ft kt kg state
      = (if (if decide (kg.data.background.transparent ≠ 0 ∧
                state.path.flag &&& kt.PATH_RAY_TRANSPARENT_BACKGROUND ≠ 0) = true then
              (if ft.PASSES = true then
                decide (kg.data.film.light_pass_flag &&& kt.PASSMASK_BACKGROUND ≠ 0)
               else false)
             else true) = true then
            integrator_eval_background_shader ft kt kg state
          else (zero_float3, [])).2 ++
        [Call.kernel_accum_background
          (if kg.path_state_ao_bounce state = true then
            (if (if decide (kg.data.background.transparent ≠ 0 ∧
                    state.path.flag &&& kt.PATH_RAY_TRANSPARENT_BACKGROUND ≠ 0) = true then
                  (if ft.PASSES = true then
                    decide (kg.data.film.light_pass_flag &&& kt.PASSMASK_BACKGROUND ≠ 0)
                   else false)
                 else true) = true then
                integrator_eval_background_shader ft kt kg state
              else (zero_float3, [])).1 * kg.data.integrator.ao_bounces_factor
           else
            (if (if decide (kg.data.background.transparent ≠ 0 ∧
                    state.path.flag &&& kt.PATH_RAY_TRANSPARENT_BACKGROUND ≠ 0) = true then
                  (if ft.PASSES = true then
                    decide (kg.data.film.light_pass_flag &&& kt.PASSMASK_BACKGROUND ≠ 0)
                   else false)
                 else true) = true then
                integrator_eval_background_shader ft kt kg state
              else (zero_float3, [])).1)
          (if decide (kg.data.background.transparent ≠ 0 ∧
              state.path.flag &&& kt.PATH_RAY_TRANSPARENT_BACKGROUND ≠ 0) = true then
            average state.path.throughput else 0)
          (decide (kg.data.background.transparent ≠ 0 ∧
            state.path.flag &&& kt.PATH_RAY_TRANSPARENT_BACKGROUND ≠ 0))] := rfl

/-- When the evaluator is used: the log is the evaluator's log followed by the write. -/
theorem integrate_background_evaluated {SD : Type} (ft : KernelFeatures) (kt : KernelTypes)
    (kg : KernelGlobals SD) (state : IntegratorState)
    (h : ¬ (kg.data.background.transparent ≠ 0 ∧
          state.path.flag &&& kt.PATH_RAY_TRANSPARENT_BACKGROUND ≠ 0) ∨
        (ft.PASSES = true ∧ kg.data.film.light_pass_flag &&& kt.PASSMASK_BACKGROUND ≠ 0)) :
    integrate_background ft kt kg state
      = (integrator_eval_background_shader ft kt kg state).2 ++
        [Call.kernel_accum_background
          (if kg.path_state_ao_bounce state = true then
            (integrator_eval_background_shader ft kt kg state).1 *
              kg.data.integrator.ao_bounces_factor
           else (integrator_eval_background_shader ft kt kg state).1)
          (if decide (kg.data.background.transparent ≠ 0 ∧
              state.path.flag &&& kt.PATH_RAY_TRANSPARENT_BACKGROUND ≠ 0) = true then
            average state.path.throughput else 0)
          (decide (kg.data.background.transparent ≠ 0 ∧
            state.path.flag &&& kt.PATH_RAY_TRANSPARENT_BACKGROUND ≠ 0))] := by
  have hev : (if decide (kg.data.background.transparent ≠ 0 ∧
                state.path.flag &&& kt.PATH_RAY_TRANSPARENT_BACKGROUND ≠ 0) = true then
              (if ft.PASSES = true then
                decide (kg.data.film.light_pass_flag &&& kt.PASSMASK_BACKGROUND ≠ 0)
               else false)
             else true) = true := by
    rcases h with h | ⟨hP, hpass⟩
    · rw [if_neg (by simpa using h)]
    · split_ifs
      · simpa using hpass
      · rfl
  rw [integrate_background_unfold, if_pos hev]

/-- When the evaluator is skipped: the log is the write alone, with zero radiance. -/
theorem integrate_background_skipped {SD : Type} (ft : KernelFeatures) (kt : KernelTypes)
    (kg : KernelGlobals SD) (state : IntegratorState)
    (htr : kg.data.background.transparent ≠ 0 ∧
      state.path.flag &&& kt.PATH_RAY_TRANSPARENT_BACKGROUND ≠ 0)
    (hpass : ¬ (ft.PASSES = true ∧
      kg.data.film.light_pass_flag &&& kt.PASSMASK_BACKGROUND ≠ 0)) :
    integrate_background ft kt kg state
      = [Call.kernel_accum_background zero_float3 (average state.path.throughput) true] := by
  have hitb : decide (kg.data.background.transparent ≠ 0 ∧
      state.path.flag &&& kt.PATH_RAY_TRANSPARENT_BACKGROUND ≠ 0) = true := by
    simpa using htr
  have hev : ¬ ((if decide (kg.data.background.transparent ≠ 0 ∧
                state.path.flag &&& kt.PATH_RAY_TRANSPARENT_BACKGROUND ≠ 0) = true then
              (if ft.PASSES = true then
                decide (kg.data.film.light_pass_flag &&& kt.PASSMASK_BACKGROUND ≠ 0)
               else false)
             else true) = true) := by
    rw [if_pos hitb]
    split_ifs with hP
    · simpa using fun h => hpass ⟨hP, h⟩
    · simp
  rw [integrate_background_unfold, if_neg hev, if_pos hitb, hitb]
  simp only [zero_float3_scale, ite_self, List.nil_append]

/-- The write of `integrate_background` is the only background write of its log. -/
theorem background_writes_integrate_background {SD : Type} (ft : KernelFeatures)
    (kt : KernelTypes) (kg : KernelGlobals SD) (state : IntegratorState)
    (calls : List Call) (L : float3) (t : ℚ) (b : Bool)
    (hcalls : calls = [] ∨ calls = (integrator_eval_background_shader ft kt kg state).2)
    (h : integrate_background ft kt kg state = calls ++ [Call.kernel_accum_background L t b]) :
    background_writes (integrate_background ft kt kg state) = [(L, t, b)] := by
  rw [h, background_writes_append, background_writes_accum]
  rcases hcalls with hc | hc
  · rw [hc]; rfl
  · rw [hc, background_writes_integrator_eval_background_shader]; rfl

/-! ## Background integration -/

/-- Claim C17: `integrate_background` makes exactly one background write, it is the last
call of its log, and the `is_transparent_background_ray` argument of that write is true
if and only if `kernel_data.background.transparent` is set and the path flag
`PATH_RAY_TRANSPARENT_BACKGROUND` is set. -/
theorem integrate_background_transparent_ray_flag {SD : Type} (ft : KernelFeatures)
    (kt : KernelTypes) (kg : KernelGlobals SD) (state : IntegratorState) :
    ∃ (L : float3) (t : ℚ) (b : Bool),
      background_writes (integrate_background ft kt kg state) = [(L, t, b)] ∧
      (integrate_background ft kt kg state).getLast?
        = some (Call.kernel_accum_background L t b) ∧
      (b = true ↔
        (kg.data.background.transparent ≠ 0 ∧
          state.path.flag &&& kt.PATH_RAY_TRANSPARENT_BACKGROUND ≠ 0)) := by
  by_cases hskip : (kg.data.background.transparent ≠ 0 ∧
        state.path.flag &&& kt.PATH_RAY_TRANSPARENT_BACKGROUND ≠ 0) ∧
      ¬ (ft.PASSES = true ∧ kg.data.film.light_pass_flag &&& kt.PASSMASK_BACKGROUND ≠ 0)
  · have h := integrate_background_skipped ft kt kg state hskip.1 hskip.2
    refine ⟨zero_float3, average state.path.throughput, true, ?_, ?_, ?_⟩
    · exact background_writes_integrate_background ft kt kg state [] _ _ _ (Or.inl rfl) h
    · rw [h]; rfl
    · simpa using hskip.1
  · have hev : ¬ (kg.data.background.transparent ≠ 0 ∧
          state.path.flag &&& kt.PATH_RAY_TRANSPARENT_BACKGROUND ≠ 0) ∨
        (ft.PASSES = true ∧ kg.data.film.light_pass_flag &&& kt.PASSMASK_BACKGROUND ≠ 0) := by
      by_cases hA : kg.data.background.transparent ≠ 0 ∧
          state.path.flag &&& kt.PATH_RAY_TRANSPARENT_BACKGROUND ≠ 0
      · exact Or.inr (not_not.mp fun hB => hskip ⟨hA, hB⟩)
      · exact Or.inl hA
    have h := integrate_background_evaluated ft kt kg state hev
    refine ⟨_, _, _,
      background_writes_integrate_background ft kt kg state _ _ _ _ (Or.inr rfl) h, ?_, ?_⟩
    · rw [h, List.getLast?_append]; rfl
    · exact decide_eq_true_iff

/-- Claim C18: for a transparent-background ray (`background.transparent` set and
`PATH_RAY_TRANSPARENT_BACKGROUND` set) with no background pass requested, the log of
`integrate_background` is the single write of radiance `(0,0,0)` with transparency
`(x + y + z) / 3` of the throughput and the transparent-ray argument true: none of the
calls of the background shader evaluator occurs, for any background shader and any setting
of the feature switches. -/
theorem integrate_background_transparent_no_pass {SD : Type} (ft : KernelFeatures)
    (kt : KernelTypes) (kg : KernelGlobals SD) (state : IntegratorState)
    (htr : kg.data.background.transparent ≠ 0)
    (hflag : state.path.flag &&& kt.PATH_RAY_TRANSPARENT_BACKGROUND ≠ 0)
    (hpass : kg.data.film.light_pass_flag &&& kt.PASSMASK_BACKGROUND = 0) :
    integrate_background ft kt kg state
      = [Call.kernel_accum_background ⟨0, 0, 0⟩
          ((state.path.throughput.x + state.path.throughput.y + state.path.throughput.z) / 3)
          true] := by
  have hp : ¬ (ft.PASSES = true ∧
      kg.data.film.light_pass_flag &&& kt.PASSMASK_BACKGROUND ≠ 0) := fun h => h.2 hpass
  rw [integrate_background_skipped ft kt kg state ⟨htr, hflag⟩ hp]
  rfl

/-- Witness for C18: throughput `(1/2, 1/2, 1/2)` on a transparent-background ray of the
example scene with a transparent background: radiance zero, transparency `1/2`. -/
theorem integrate_background_transparent_no_pass_witness :
    integrate_background allFeatures exampleTypes exampleTransparentGlobals
        (exampleState (2 ^ 17 + 1))
      = [Call.kernel_accum_background ⟨0, 0, 0⟩ (1 / 2) true] := by
  have h := integrate_background_transparent_no_pass allFeatures exampleTypes
    exampleTransparentGlobals (exampleState (2 ^ 17 + 1)) (by decide) (by decide) (by decide)
  rw [h]
  simp only [exampleState]
  norm_num

/-- Claim C19: when the ray is not a transparent-background ray, or (in a build with the
passes feature) the background pass is requested, the log of `integrate_background` is
the log of `integrator_eval_background_shader` for that state followed by one write, whose
radiance is the evaluator's result, multiplied by `ao_bounces_factor` exactly when
`path_state_ao_bounce` holds; that write is the only background write of the log. -/
theorem integrate_background_writes_evaluated_radiance {SD : Type} (ft : KernelFeatures)
    (kt : KernelTypes) (kg : KernelGlobals SD) (state : IntegratorState)
    (h : ¬ (kg.data.background.transparent ≠ 0 ∧
          state.path.flag &&& kt.PATH_RAY_TRANSPARENT_BACKGROUND ≠ 0) ∨
        (ft.PASSES = true ∧ kg.data.film.light_pass_flag &&& kt.PASSMASK_BACKGROUND ≠ 0)) :
    ∃ (t : ℚ) (b : Bool),
      integrate_background ft kt kg state
        = (integrator_eval_background_shader ft kt kg state).2 ++
          [Call.kernel_accum_background
            (if kg.path_state_ao_bounce state = true then
              (integrator_eval_background_shader ft kt kg state).1 *
                kg.data.integrator.ao_bounces_factor
             else (integrator_eval_background_shader ft kt kg state).1) t b] ∧
      background_writes (integrate_background ft kt kg state)
        = [(if kg.path_state_ao_bounce state = true then
              (integrator_eval_background_shader ft kt kg state).1 *
                kg.data.integrator.ao_bounces_factor
            else (integrator_eval_background_shader ft kt kg state).1, t, b)] := by
  have he := integrate_background_evaluated ft kt kg state h
  exact ⟨_, _, he,
    background_writes_integrate_background ft kt kg state _ _ _ _ (Or.inr rfl) he⟩

/-- Witness for C19: a camera ray (not a transparent-background ray) in the example
scene: the evaluator returns `(0, 0, 1/2)` and that is the radiance written. -/
theorem integrate_background_writes_evaluated_radiance_witness :
    background_writes (integrate_background allFeatures exampleTypes exampleGlobals
        (exampleState 1))
      = [(⟨0, 0, 1 / 2⟩, 0, false)] := by
  obtain ⟨t, b, hlog, hw⟩ := integrate_background_writes_evaluated_radiance allFeatures
    exampleTypes exampleGlobals (exampleState 1) (Or.inl (by decide))
  have hlog2 := integrate_background_evaluated allFeatures exampleTypes exampleGlobals
    (exampleState 1) (Or.inl (by decide))
  rw [hlog2] at hlog
  have htb := List.append_cancel_left hlog
  simp only [List.cons.injEq, Call.kernel_accum_background.injEq, and_true, true_and] at htb
  rw [hw, ← htb.1, ← htb.2]
  have hv : (integrator_eval_background_shader allFeatures exampleTypes exampleGlobals
      (exampleState 1)).1 = ⟨0, 0, 1 / 2⟩ := by
    rw [integrator_eval_background_shader_graph_mis allFeatures exampleTypes exampleGlobals
      (exampleState 1) rfl (by decide) rfl ⟨rfl, by decide, by decide⟩]
    simp only [exampleGlobals, exampleState, power_heuristic, float3_scale_def]
    norm_num
  rw [hv]
  rfl

/-- Claim C20: the radiance written by `integrate_background` is `L * ao_bounces_factor`
when `path_state_ao_bounce` holds and `L` itself otherwise, where `L` is the radiance
before the adjustment (zero for a transparent-background ray without background pass,
the evaluator's result otherwise). -/
theorem integrate_background_ao_bounce_scaling {SD : Type} (ft : KernelFeatures)
    (kt : KernelTypes) (kg : KernelGlobals SD) (state : IntegratorState) :
    ∃ (L : float3) (t : ℚ) (b : Bool),
      L = (if (kg.data.background.transparent ≠ 0 ∧
                state.path.flag &&& kt.PATH_RAY_TRANSPARENT_BACKGROUND ≠ 0) ∧
              ¬ (ft.PASSES = true ∧
                kg.data.film.light_pass_flag &&& kt.PASSMASK_BACKGROUND ≠ 0) then
            zero_float3
           else (integrator_eval_background_shader ft kt kg state).1) ∧
      background_writes (integrate_background ft kt kg state)
        = [(if kg.path_state_ao_bounce state = true then
              L * kg.data.integrator.ao_bounces_factor
            else L, t, b)] := by
  by_cases hskip : (kg.data.background.transparent ≠ 0 ∧
        state.path.flag &&& kt.PATH_RAY_TRANSPARENT_BACKGROUND ≠ 0) ∧
      ¬ (ft.PASSES = true ∧ kg.data.film.light_pass_flag &&& kt.PASSMASK_BACKGROUND ≠ 0)
  · have h := integrate_background_skipped ft kt kg state hskip.1 hskip.2
    refine ⟨zero_float3, average state.path.throughput, true, (if_pos hskip).symm, ?_⟩
    rw [zero_float3_scale, ite_self]
    exact background_writes_integrate_background ft kt kg state [] _ _ _ (Or.inl rfl) h
  · have hev : ¬ (kg.data.background.transparent ≠ 0 ∧
          state.path.flag &&& kt.PATH_RAY_TRANSPARENT_BACKGROUND ≠ 0) ∨
        (ft.PASSES = true ∧ kg.data.film.light_pass_flag &&& kt.PASSMASK_BACKGROUND ≠ 0) := by
      by_cases hA : kg.data.background.transparent ≠ 0 ∧
          state.path.flag &&& kt.PATH_RAY_TRANSPARENT_BACKGROUND ≠ 0
      · exact Or.inr (not_not.mp fun hB => hskip ⟨hA, hB⟩)
      · exact Or.inl hA
    have h := integrate_background_evaluated ft kt kg state hev
    exact ⟨_, _, _, (if_neg hskip).symm,
      background_writes_integrate_background ft kt kg state _ _ _ _ (Or.inr rfl) h⟩

/-! ## Behaviour claims on the kernel -/

/-- Claim C25: in a build with the background feature, when the background shader is a
constant-emission shader of value `c`, `integrator_eval_background_shader` returns `c`
(after the constant-emission query alone) for the state as given and for the state with
its flag word, `mis_ray_pdf` and `mis_ray_t` replaced by any other values that leave the
shader visible, also with `use_mis` set to any other value and with the background-MIS
feature switched either way: the two results are the same. -/
theorem integrator_eval_background_shader_constant_ignores_mis {SD : Type}
    (ft ft2 : KernelFeatures) (kt : KernelTypes) (kg : KernelGlobals SD)
    (state : IntegratorState) (c : float3) (flag2 : Nat) (pdf2 t2 : ℚ) (use_mis2 : Int)
    (hB : ft.BACKGROUND = true) (hB2 : ft2.BACKGROUND = true)
    (hc : kg.shader_constant_emission_eval kg.data.background.surface_shader = some c)
    (hex : visibility_excluded kt kg.data.background.surface_shader state.path.flag = false)
    (hex2 : visibility_excluded kt kg.data.background.surface_shader flag2 = false) :
    integrator_eval_background_shader ft kt kg state
      = (c, [Call.shader_constant_emission_eval kg.data.background.surface_shader]) ∧
    integrator_eval_background_shader ft2 kt
        { kg with data := { kg.data with
            background := { kg.data.background with use_mis := use_mis2 } } }
        { state with path := { state.path with
            flag := flag2, mis_ray_pdf := pdf2, mis_ray_t := t2 } }
      = integrator_eval_background_shader ft kt kg state := by
  have h1 := integrator_eval_background_shader_constant ft kt kg state c hB hex hc
  have h2 := integrator_eval_background_shader_constant ft2 kt
    { kg with data := { kg.data with
        background := { kg.data.background with use_mis := use_mis2 } } }
    { state with path := { state.path with
        flag := flag2, mis_ray_pdf := pdf2, mis_ray_t := t2 } } c hB2 hex2 hc
  exact ⟨h1, h2.trans h1.symm⟩

/-- Witness for C25: the constant background `(0.2, 0.3, 0.4)`; a camera ray with
`PATH_RAY_MIS_SKIP` set against the same ray with the flag clear, other MIS values, and
`use_mis` switched on. -/
theorem integrator_eval_background_shader_constant_ignores_mis_witness :
    integrator_eval_background_shader allFeatures exampleTypes
        { exampleConstantGlobals with data := { exampleConstantGlobals.data with
            background := { exampleConstantGlobals.data.background with use_mis := 1 } } }
        { exampleState (2 ^ 11 + 1) with path := { (exampleState (2 ^ 11 + 1)).path with
            flag := 1, mis_ray_pdf := 5, mis_ray_t := 7 } }
      = integrator_eval_background_shader allFeatures exampleTypes exampleConstantGlobals
          (exampleState (2 ^ 11 + 1)) :=
  (integrator_eval_background_shader_constant_ignores_mis allFeatures allFeatures
    exampleTypes exampleConstantGlobals (exampleState (2 ^ 11 + 1)) ⟨1 / 5, 3 / 10, 2 / 5⟩
    1 5 7 1 rfl rfl rfl (by decide) (by decide)).2

/-- Claim C26: in a build with the shadow-catcher feature, for every entry state whose
flag word is a 32-bit word, bit `i` of the flag word left by `integrator_shade_background`
is bit `i` of the entry flag word, except that the bits of
`PATH_RAY_SHADOW_CATCHER_BACKGROUND` are clear; the flag word is the entry flag word
itself when that flag was clear at entry; throughput, `mis_ray_pdf`, `mis_ray_t`, the ray
and the intersection are unchanged. -/
theorem integrator_shade_background_frame {SD : Type} (ft : KernelFeatures)
    (kt : KernelTypes) (kg : KernelGlobals SD) (state : IntegratorState)
    (hft : ft.SHADOW_CATCHER = true)
    (hword : state.path.flag < 2 ^ 32) :
    (∀ i : Nat, (integrator_shade_background ft kt kg state).1.path.flag.testBit i
        = (state.path.flag.testBit i &&
            !(kt.PATH_RAY_SHADOW_CATCHER_BACKGROUND.testBit i))) ∧
    (state.path.flag &&& kt.PATH_RAY_SHADOW_CATCHER_BACKGROUND = 0 →
      (integrator_shade_background ft kt kg state).1.path.flag = state.path.flag) ∧
    (integrator_shade_background ft kt kg state).1.path.throughput = state.path.throughput ∧
    (integrator_shade_background ft kt kg state).1.path.mis_ray_pdf = state.path.mis_ray_pdf ∧
    (integrator_shade_background ft kt kg state).1.path.mis_ray_t = state.path.mis_ray_t ∧
    (integrator_shade_background ft kt kg state).1.ray = state.ray ∧
    (integrator_shade_background ft kt kg state).1.isect = state.isect := by
  by_cases hflag : state.path.flag &&& kt.PATH_RAY_SHADOW_CATCHER_BACKGROUND = 0
  · have h : ¬ (ft.SHADOW_CATCHER = true ∧
        state.path.flag &&& kt.PATH_RAY_SHADOW_CATCHER_BACKGROUND ≠ 0) := by
      simp [hflag]
    rw [integrator_shade_background_no_catcher ft kt kg state h]
    refine ⟨?_, fun _ => rfl, rfl, rfl, rfl, rfl, rfl⟩
    intro i
    have hi := congrArg (fun n => n.testBit i) hflag
    simp only [Nat.testBit_and, Nat.zero_testBit] at hi
    revert hi
    cases state.path.flag.testBit i <;>
      cases kt.PATH_RAY_SHADOW_CATCHER_BACKGROUND.testBit i <;> simp
  · rw [integrator_shade_background_catcher ft kt kg state ⟨hft, hflag⟩]
    refine ⟨?_, fun h0 => absurd h0 hflag, rfl, rfl, rfl, rfl, rfl⟩
    intro i
    simp only [bitnot32, Nat.testBit_and, Nat.testBit_xor, Nat.testBit_two_pow_sub_one]
    by_cases hi : i < 32
    · cases state.path.flag.testBit i <;>
        cases kt.PATH_RAY_SHADOW_CATCHER_BACKGROUND.testBit i <;> simp [hi]
    · have hlt : state.path.flag < 2 ^ i :=
        lt_of_lt_of_le hword (Nat.pow_le_pow_right (by norm_num) (not_lt.mp hi))
      simp [Nat.testBit_lt_two_pow hlt]

/-- Witness for C26: the flagged camera ray `2^31 + 1`: the flag word is a 32-bit word,
every bit of the exit flag word is the entry bit with the catcher bit masked out, and the
ray is unchanged. -/
theorem integrator_shade_background_frame_witness :
    (exampleState (2 ^ 31 + 1)).path.flag < 2 ^ 32 ∧
    (∀ i : Nat, (integrator_shade_background allFeatures exampleTypes exampleGlobals
          (exampleState (2 ^ 31 + 1))).1.path.flag.testBit i
        = ((exampleState (2 ^ 31 + 1)).path.flag.testBit i &&
            !(exampleTypes.PATH_RAY_SHADOW_CATCHER_BACKGROUND.testBit i))) ∧
    (integrator_shade_background allFeatures exampleTypes exampleGlobals
        (exampleState (2 ^ 31 + 1))).1.ray = (exampleState (2 ^ 31 + 1)).ray :=
  have h := integrator_shade_background_frame allFeatures exampleTypes exampleGlobals
    (exampleState (2 ^ 31 + 1)) rfl (by decide)
  ⟨by decide, h.1, h.2.2.2.2.2.1⟩

theorem light_stops_of_miss {SD : Type} (ft : KernelFeatures) (kt : KernelTypes)
    (kg : KernelGlobals SD) (state : IntegratorState) (lamp : Nat)
    (hls : kg.light_sample_from_distant_ray state.ray.D lamp = none) :
    light_stops ft kt kg state lamp = false := by
  simp [light_stops, hls]

theorem light_stops_of_hit {SD : Type} (ft : KernelFeatures) (kt : KernelTypes)
    (kg : KernelGlobals SD) (state : IntegratorState) (lamp : Nat) (ls : LightSample)
    (hls : kg.light_sample_from_distant_ray state.ray.D lamp = some ls) :
    light_stops ft kt kg state lamp = true ↔
      ((ft.PASSES = true ∧ visibility_excluded kt ls.shader state.path.flag = true) ∨
        is_zero (kg.light_sample_shader_eval state ls state.ray.time) = true) := by
  simp [light_stops, hls]

/-- Which lights the loop accumulates, for `n` iterations from light `lamp`. -/
theorem mem_accumulated_lamps_loop {SD : Type} (ft : KernelFeatures) (kt : KernelTypes)
    (kg : KernelGlobals SD) (state : IntegratorState) (n lamp : Nat) (cur : Option Nat)
    (k : Nat) :
    k ∈ accumulated_lamps (integrate_distant_lights_loop ft kt kg state n lamp) cur ↔
      (lamp ≤ k ∧ k < lamp + n ∧
        (kg.light_sample_from_distant_ray state.ray.D k).isSome = true ∧
        ∀ j : Nat, lamp ≤ j → j ≤ k → light_stops ft kt kg state j = false) := by
  induction n generalizing lamp cur with
  | zero =>
    rw [integrate_distant_lights_loop_zero]
    simp only [accumulated_lamps, List.not_mem_nil, false_iff]
    rintro ⟨h1, h2, -⟩
    omega
  | succ n ih =>
    cases hls : kg.light_sample_from_distant_ray state.ray.D lamp with
    | none =>
      rw [integrate_distant_lights_loop_miss ft kt kg state n lamp hls]
      simp only [accumulated_lamps]
      rw [ih (lamp + 1) (some lamp)]
      constructor
      · rintro ⟨h1, h2, h3, h4⟩
        refine ⟨by omega, by omega, h3, ?_⟩
        intro j hj1 hj2
        by_cases hj : j = lamp
        · rw [hj]; exact light_stops_of_miss ft kt kg state lamp hls
        · exact h4 j (by omega) hj2
      · rintro ⟨h1, h2, h3, h4⟩
        have hne : k ≠ lamp := by
          intro hk
          rw [hk, hls] at h3
          simp at h3
        exact ⟨by omega, by omega, h3, fun j hj1 hj2 => h4 j (by omega) hj2⟩
    | some ls =>
      have hstop := light_stops_of_hit ft kt kg state lamp ls hls
      by_cases hex : ft.PASSES = true ∧ visibility_excluded kt ls.shader state.path.flag = true
      · rw [integrate_distant_lights_loop_excluded ft kt kg state n lamp ls hls hex.1 hex.2]
        simp only [accumulated_lamps, List.not_mem_nil, false_iff]
        rintro ⟨h1, -, -, h4⟩
        have := h4 lamp (le_refl lamp) h1
        rw [hstop.mpr (Or.inl hex)] at this
        exact Bool.noConfusion this
      · cases hz : is_zero (kg.light_sample_shader_eval state ls state.ray.time)
        · rw [integrate_distant_lights_loop_accum ft kt kg state n lamp ls hls hex hz]
          simp only [accumulated_lamps, List.mem_cons]
          rw [ih (lamp + 1) (some lamp)]
          have hnot : light_stops ft kt kg state lamp = false := by
            rw [← Bool.not_eq_true, hstop]
            rintro (h | h)
            · exact hex h
            · rw [hz] at h; exact Bool.noConfusion h
          constructor
          · rintro (rfl | ⟨h1, h2, h3, h4⟩)
            · refine ⟨le_refl _, by omega, by rw [hls]; rfl, ?_⟩
              intro j hj1 hj2
              have : j = k := by omega
              rw [this]; exact hnot
            · refine ⟨by omega, by omega, h3, ?_⟩
              intro j hj1 hj2
              by_cases hj : j = lamp
              · rw [hj]; exact hnot
              · exact h4 j (by omega) hj2
          · rintro ⟨h1, h2, h3, h4⟩
            by_cases hk : k = lamp
            · exact Or.inl hk
            · exact Or.inr ⟨by omega, by omega, h3, fun j hj1 hj2 => h4 j (by omega) hj2⟩
        · rw [integrate_distant_lights_loop_zero_eval ft kt kg state n lamp ls hls hex hz]
          simp only [accumulated_lamps, List.not_mem_nil, false_iff]
          rintro ⟨h1, -, -, h4⟩
          have := h4 lamp (le_refl lamp) h1
          rw [hstop.mpr (Or.inr hz)] at this
          exact Bool.noConfusion this

/-- The loop writes at most one emission per iteration. -/
theorem emission_writes_loop_length_le {SD : Type} (ft : KernelFeatures) (kt : KernelTypes)
    (kg : KernelGlobals SD) (state : IntegratorState) (n lamp : Nat) :
    (emission_writes (integrate_distant_lights_loop ft kt kg state n lamp)).length ≤ n := by
  induction n generalizing lamp with
  | zero => rw [integrate_distant_lights_loop_zero]; simp [emission_writes_nil]
  | succ n ih =>
    cases hls : kg.light_sample_from_distant_ray state.ray.D lamp with
    | none =>
      rw [integrate_distant_lights_loop_miss ft kt kg state n lamp hls,
        emission_writes_light_test]
      exact Nat.le_succ_of_le (ih (lamp + 1))
    | some ls =>
      by_cases hex : ft.PASSES = true ∧ visibility_excluded kt ls.shader state.path.flag = true
      · rw [integrate_distant_lights_loop_excluded ft kt kg state n lamp ls hls hex.1 hex.2,
          emission_writes_light_test, emission_writes_nil]
        simp
      · cases hz : is_zero (kg.light_sample_shader_eval state ls state.ray.time)
        · rw [integrate_distant_lights_loop_accum ft kt kg state n lamp ls hls hex hz,
            emission_writes_light_test, emission_writes_light_eval, emission_writes_accum,
            List.length_cons]
          exact Nat.succ_le_succ (ih (lamp + 1))
        · rw [integrate_distant_lights_loop_zero_eval ft kt kg state n lamp ls hls hex hz,
            emission_writes_light_test, emission_writes_light_eval, emission_writes_nil]
          simp

/-- Claim C24: the lights for which the log of `integrate_distant_lights` holds an emission
write are exactly the lights `k` below `num_all_lights` that are hit and such that no
light `j ≤ k` is a hit light that is excluded by the visibility test or evaluates to zero
(the hit lights before the first such light, all hit lights if there is none); at a light
the ray misses the loop logs the hit test and goes on with the next light; and the number
of emission writes is at most `num_all_lights`. -/
theorem integrate_distant_lights_accumulating_lights {SD : Type} (ft : KernelFeatures)
    (kt : KernelTypes) (kg : KernelGlobals SD) (state : IntegratorState) :
    (∀ k : Nat,
      k ∈ accumulated_lamps (integrate_distant_lights ft kt kg state) none ↔
        (k < kg.data.integrator.num_all_lights.toNat ∧
          (kg.light_sample_from_distant_ray state.ray.D k).isSome = true ∧
          ∀ j : Nat, j ≤ k → light_stops ft kt kg state j = false)) ∧
    (∀ n lamp : Nat, kg.light_sample_from_distant_ray state.ray.D lamp = none →
      integrate_distant_lights_loop ft kt kg state (n + 1) lamp
        = Call.light_sample_from_distant_ray state.ray.D lamp ::
            integrate_distant_lights_loop ft kt kg state n (lamp + 1)) ∧
    (emission_writes (integrate_distant_lights ft kt kg state)).length
      ≤ kg.data.integrator.num_all_lights.toNat := by
  refine ⟨?_, ?_, ?_⟩
  · intro k
    unfold integrate_distant_lights
    rw [mem_accumulated_lamps_loop]
    constructor
    · rintro ⟨-, h2, h3, h4⟩
      exact ⟨by omega, h3, fun j hj => h4 j (Nat.zero_le j) hj⟩
    · rintro ⟨h2, h3, h4⟩
      exact ⟨Nat.zero_le k, by omega, h3, fun j _ hj => h4 j hj⟩
  · intro n lamp hls
    exact integrate_distant_lights_loop_miss ft kt kg state n lamp hls
  · unfold integrate_distant_lights
    exact emission_writes_loop_length_le ft kt kg state _ 0

/-- Witness for C24: in `exampleTwoLights`, for a camera ray with `PATH_RAY_MIS_SKIP`, both
lights are hit and neither stops the loop, so both are among the accumulating lights;
in `exampleBlockedLights` light 0 stops the loop and light 1 is not among them. -/
theorem integrate_distant_lights_accumulating_lights_witness :
    (0 ∈ accumulated_lamps (integrate_distant_lights allFeatures exampleTypes
        exampleTwoLights (exampleState (2 ^ 11 + 1))) none ∧
     1 ∈ accumulated_lamps (integrate_distant_lights allFeatures exampleTypes
        exampleTwoLights (exampleState (2 ^ 11 + 1))) none) ∧
    1 ∉ accumulated_lamps (integrate_distant_lights allFeatures exampleTypes
        exampleBlockedLights (exampleState 1)) none := by
  have h := (integrate_distant_lights_accumulating_lights allFeatures exampleTypes
    exampleTwoLights (exampleState (2 ^ 11 + 1))).1
  have hb := (integrate_distant_lights_accumulating_lights allFeatures exampleTypes
    exampleBlockedLights (exampleState 1)).1
  have hs0 : light_stops allFeatures exampleTypes exampleTwoLights
      (exampleState (2 ^ 11 + 1)) 0 = false := by
    simp [light_stops, exampleTwoLights, exampleGlobals, is_zero, allFeatures]
    decide
  have hs1 : light_stops allFeatures exampleTypes exampleTwoLights
      (exampleState (2 ^ 11 + 1)) 1 = false := by
    simp [light_stops, exampleTwoLights, exampleGlobals, is_zero, allFeatures]
    decide
  refine ⟨⟨(h 0).mpr ⟨by decide, rfl, ?_⟩, (h 1).mpr ⟨by decide, rfl, ?_⟩⟩, ?_⟩
  · intro j hj
    have : j = 0 := by omega
    rw [this]; exact hs0
  · intro j hj
    have : j = 0 ∨ j = 1 := by omega
    rcases this with rfl | rfl
    · exact hs0
    · exact hs1
  · intro hmem
    have h0 := ((hb 1).mp hmem).2.2 0 (by omega)
    have : light_stops allFeatures exampleTypes exampleBlockedLights (exampleState 1) 0
        = true := by
      simp [light_stops, exampleBlockedLights, allFeatures]
      left
      decide
    rw [this] at h0
    exact Bool.noConfusion h0

end Cycles

namespace Storage

/-! ## Lemmas on buffers -/

theorem getD_set (l : List Nat) (i j a : Nat) :
    (l.set i a).getD j 0 = if i = j ∧ i < l.length then a else l.getD j 0 := by
  simp only [List.getD_eq_getElem?_getD, List.getElem?_set]
  by_cases h : i = j
  · subst h
    by_cases h2 : i < l.length
    · simp [h2]
    · simp [h2]
      rw [List.getElem?_eq_none (by omega)]
      rfl
  · simp [h]

theorem getD_of_length_le (l : List Nat) (j : Nat) (h : l.length ≤ j) : l.getD j 0 = 0 := by
  rw [List.getD_eq_getElem?_getD, List.getElem?_eq_none h]
  rfl

theorem memchr_some (mem : List Nat) (c : Nat) (len p q : Nat)
    (h : memchr mem c p len = some q) :
    p ≤ q ∧ q < p + len ∧ mem.getD q 0 = c ∧ ∀ j, p ≤ j → j < q → mem.getD j 0 ≠ c := by
  induction len generalizing p with
  | zero => simp [memchr] at h
  | succ len ih =>
    unfold memchr at h
    by_cases hp : mem.getD p 0 = c
    · rw [if_pos hp] at h
      have hq : p = q := Option.some.inj h
      subst hq
      exact ⟨le_refl _, by omega, hp, fun j h1 h2 => by omega⟩
    · rw [if_neg hp] at h
      obtain ⟨h1, h2, h3, h4⟩ := ih (p + 1) h
      refine ⟨by omega, by omega, h3, ?_⟩
      intro j hj1 hj2
      by_cases hj : j = p
      · rw [hj]; exact hp
      · exact h4 j (by omega) hj2

theorem memchr_none (mem : List Nat) (c : Nat) (len p : Nat)
    (h : memchr mem c p len = none) :
    ∀ j, p ≤ j → j < p + len → mem.getD j 0 ≠ c := by
  induction len generalizing p with
  | zero => intro j h1 h2; omega
  | succ len ih =>
    unfold memchr at h
    by_cases hp : mem.getD p 0 = c
    · rw [if_pos hp] at h
      exact Option.noConfusion h
    · rw [if_neg hp] at h
      intro j hj1 hj2
      by_cases hj : j = p
      · rw [hj]; exact hp
      · exact ih (p + 1) h j (by omega) (by omega)

theorem trim_loop_length (p : Nat) (k : Nat) (mem : List Nat) :
    (trim_loop p k mem).length = mem.length := by
  induction k generalizing mem with
  | zero => rfl
  | succ k ih =>
    unfold trim_loop
    split_ifs
    · rw [ih, List.length_set]
    · rfl

/-- The trim loop only writes nil, and only at offsets in `(p, p_trim]`. -/
theorem trim_loop_getD (p : Nat) (k : Nat) (mem : List Nat) (j : Nat) :
    (trim_loop p k mem).getD j 0 = mem.getD j 0 ∨
      ((trim_loop p k mem).getD j 0 = 0 ∧ p < j ∧ j ≤ k) := by
  induction k generalizing mem with
  | zero => exact Or.inl rfl
  | succ k ih =>
    unfold trim_loop
    split_ifs with hc
    · rcases ih (mem.set (k + 1) 0) with h | ⟨h1, h2, h3⟩
      · rw [h, getD_set]
        by_cases hj : k + 1 = j ∧ k + 1 < mem.length
        · rw [if_pos hj]
          exact Or.inr ⟨rfl, by omega, by omega⟩
        · rw [if_neg hj]
          exact Or.inl rfl
      · exact Or.inr ⟨h1, h2, by omega⟩
    · exact Or.inl rfl

/-- The invariant of the outer loop at offset `p`, against the buffer `orig` at loop entry:
bytes from `p` on are untouched; before `p` no newline is left, every former newline is
nil, and without trimming every other byte is untouched. -/
theorem newline_as_nil_loop_spec (trim : Bool) (orig : List Nat) (n : Nat)
    (hn : n ≤ orig.length) (fuel p : Nat) (mem : List Nat)
    (hp : p ≤ n) (hfuel : n - p < fuel)
    (hlen : mem.length = orig.length)
    (hrest : ∀ j, p ≤ j → mem.getD j 0 = orig.getD j 0)
    (hdone : ∀ j, j < p → mem.getD j 0 ≠ 10 ∧ (orig.getD j 0 = 10 → mem.getD j 0 = 0) ∧
      (trim = false → orig.getD j 0 ≠ 10 → mem.getD j 0 = orig.getD j 0)) :
    ∃ out, newline_as_nil_loop trim n fuel p mem = some out ∧
      out.length = orig.length ∧
      (∀ j, n ≤ j → out.getD j 0 = orig.getD j 0) ∧
      (∀ j, j < n → out.getD j 0 ≠ 10 ∧ (orig.getD j 0 = 10 → out.getD j 0 = 0) ∧
        (trim = false → orig.getD j 0 ≠ 10 → out.getD j 0 = orig.getD j 0)) := by
  induction fuel generalizing p mem with
  | zero => omega
  | succ fuel ih =>
    unfold newline_as_nil_loop
    by_cases hpe : p = n
    · subst hpe
      simp only [ne_eq, not_true_eq_false, if_false]
      exact ⟨mem, rfl, hlen, hrest, hdone⟩
    · rw [if_pos hpe]
      cases hm : memchr mem 10 p (n - p) with
      | none =>
        simp only []
        have hnone := memchr_none mem 10 (n - p) p hm
        apply ih n mem (le_refl n) (by omega) hlen (fun j hj => hrest j (by omega))
        intro j hj
        by_cases hjp : j < p
        · exact hdone j hjp
        · have hne : mem.getD j 0 ≠ 10 := hnone j (by omega) (by omega)
          have heq : mem.getD j 0 = orig.getD j 0 := hrest j (by omega)
          refine ⟨hne, ?_, fun _ _ => heq⟩
          intro h10
          rw [heq] at hne
          exact absurd h10 hne
      | some q =>
        simp only []
        obtain ⟨hq1, hq2, hq3, hq4⟩ := memchr_some mem 10 (n - p) p q hm
        have hqn : q < n := by omega
        have hlen1 : (if trim = true then trim_loop p (q - 1) mem else mem).length
            = orig.length := by
          split_ifs
          · rw [trim_loop_length, hlen]
          · exact hlen
        have hget1 : ∀ j, (if trim = true then trim_loop p (q - 1) mem else mem).getD j 0
              = mem.getD j 0 ∨
            ((if trim = true then trim_loop p (q - 1) mem else mem).getD j 0 = 0 ∧
              p < j ∧ j ≤ q - 1 ∧ trim = true) := by
          intro j
          split_ifs with ht
          · rcases trim_loop_getD p (q - 1) mem j with h | ⟨h1, h2, h3⟩
            · exact Or.inl h
            · exact Or.inr ⟨h1, h2, h3, ht⟩
          · exact Or.inl rfl
        apply ih (q + 1) _ (by omega) (by omega)
        · rw [List.length_set, hlen1]
        · intro j hj
          rw [getD_set, if_neg (by omega)]
          rcases hget1 j with h | ⟨-, -, h3, -⟩
          · rw [h]; exact hrest j (by omega)
          · omega
        · intro j hj
          rw [getD_set]
          by_cases hjq : q = j
          · rw [if_pos ⟨hjq, by rw [hlen1]; omega⟩]
            refine ⟨by norm_num, fun _ => rfl, ?_⟩
            intro _ hne
            have : orig.getD j 0 = 10 := by
              rw [← hrest j (by omega), ← hjq]; exact hq3
            exact absurd this hne
          · rw [if_neg (fun h => hjq h.1)]
            by_cases hjp : j < p
            · rcases hget1 j with h | ⟨-, h2, -, -⟩
              · rw [h]; exact hdone j hjp
              · omega
            · have hne : mem.getD j 0 ≠ 10 := hq4 j (by omega) (by omega)
              have heq : mem.getD j 0 = orig.getD j 0 := hrest j (by omega)
              rcases hget1 j with h | ⟨h1, -, -, ht⟩
              · rw [h]
                refine ⟨hne, ?_, fun _ _ => heq⟩
                intro h10
                rw [heq] at hne
                exact absurd h10 hne
              · rw [h1]
                refine ⟨by norm_num, fun _ => rfl, ?_⟩
                intro hf
                rw [ht] at hf
                exact Bool.noConfusion hf

/-! ## Text file reading -/

/-- Claim C21: for every text `content` that is read successfully (`n` its length),
whatever the initial contents `pad` of the pad bytes and the trimming option,
`BLI_file_read_text_as_mem_with_newline_as_nil` returns a buffer of `n + pad_bytes` bytes
with `r_size = n`, in which every offset below `n` that held a newline holds nil and no
byte below `n` is a newline; without trimming every other byte below `n` is unchanged; and
when `pad_bytes` is non-zero the byte at offset `n` is nil. -/
theorem BLI_file_read_text_as_mem_with_newline_as_nil_spec (content pad : List Nat)
    (trim_trailing_space : Bool) :
    ∃ out : List Nat,
      BLI_file_read_text_as_mem_with_newline_as_nil (some content) trim_trailing_space pad
        = some (out, content.length) ∧
      out.length = content.length + pad.length ∧
      (∀ i, i < content.length → content.getD i 0 = 10 → out.getD i 0 = 0) ∧
      (∀ i, i < content.length → out.getD i 0 ≠ 10) ∧
      (trim_trailing_space = false →
        ∀ i, i < content.length → content.getD i 0 ≠ 10 → out.getD i 0 = content.getD i 0) ∧
      (pad.length ≠ 0 → out.getD content.length 0 = 0) := by
  have horig_len : (if pad.length ≠ 0 then (content ++ pad).set content.length 0
      else content ++ pad).length = content.length + pad.length := by
    split_ifs <;> simp
  have horig_get : ∀ i, i < content.length →
      (if pad.length ≠ 0 then (content ++ pad).set content.length 0
        else content ++ pad).getD i 0 = content.getD i 0 := by
    intro i hi
    split_ifs
    · rw [getD_set, if_neg (by omega), List.getD_append _ _ _ _ hi]
    · rw [List.getD_append _ _ _ _ hi]
  obtain ⟨out, hout, hlen, hrest, hdone⟩ := newline_as_nil_loop_spec trim_trailing_space
    (if pad.length ≠ 0 then (content ++ pad).set content.length 0 else content ++ pad)
    content.length (by rw [horig_len]; omega) (content.length + 1) 0 _
    (Nat.zero_le _) (by omega) rfl (fun j _ => rfl) (fun j hj => absurd hj (Nat.not_lt_zero j))
  refine ⟨out, ?_, ?_, ?_, ?_, ?_, ?_⟩
  · simp only [BLI_file_read_text_as_mem_with_newline_as_nil, BLI_file_read_text_as_mem]
    rw [hout]
  · rw [hlen, horig_len]
  · intro i hi h10
    exact (hdone i hi).2.1 (by rw [horig_get i hi]; exact h10)
  · intro i hi
    exact (hdone i hi).1
  · intro ht i hi hne
    rw [(hdone i hi).2.2 ht (by rw [horig_get i hi]; exact hne), horig_get i hi]
  · intro hpad
    rw [hrest content.length (le_refl _), if_pos hpad, getD_set,
      if_pos ⟨rfl, by rw [List.length_append]; omega⟩]

/-- Claim C22, the code at two failing inputs, with `trim_trailing_space` true and one pad
byte: the text `"x "` (no newline at its end) comes back unchanged, so its only line ends
in a space; the text `" \n"` comes back as `" \0"`, so its first line is a space. -/
theorem BLI_file_read_text_as_mem_with_newline_as_nil_keeps_trailing_space :
    BLI_file_read_text_as_mem_with_newline_as_nil (some [120, 32]) true [7]
      = some ([120, 32, 0], 2) ∧
    BLI_file_read_text_as_mem_with_newline_as_nil (some [32, 10]) true [7]
      = some ([32, 0, 0], 2) := by
  constructor <;> rfl

/-! ## Lemmas on splitting at newlines -/

theorem split_at_newlines_ne_nil (l : List Nat) :
    ∃ h t, split_at_newlines l = h :: t := by
  induction l with
  | nil => exact ⟨[], [], rfl⟩
  | cons c cs ih =>
    obtain ⟨h, t, ht⟩ := ih
    unfold split_at_newlines
    by_cases hc : c = 10
    · rw [if_pos hc]; exact ⟨[], _, rfl⟩
    · rw [if_neg hc, ht]; exact ⟨c :: h, t, rfl⟩

theorem split_at_newlines_cons_newline (cs : List Nat) :
    split_at_newlines (10 :: cs) = [] :: split_at_newlines cs := by
  simp [split_at_newlines]

theorem split_at_newlines_cons_other (c : Nat) (cs h : List Nat) (t : List (List Nat))
    (hc : c ≠ 10) (ht : split_at_newlines cs = h :: t) :
    split_at_newlines (c :: cs) = (c :: h) :: t := by
  simp [split_at_newlines, hc, ht]

theorem split_at_newlines_segment (seg : List Nat) (hseg : ∀ b ∈ seg, b ≠ 10) :
    split_at_newlines seg = [seg] := by
  induction seg with
  | nil => rfl
  | cons c cs ih =>
    have hcs := ih (fun b hb => hseg b (List.mem_cons_of_mem c hb))
    exact split_at_newlines_cons_other c cs cs [] (hseg c (List.mem_cons_self c cs)) hcs

theorem split_at_newlines_segment_newline (seg rest : List Nat) (hseg : ∀ b ∈ seg, b ≠ 10) :
    split_at_newlines (seg ++ 10 :: rest) = seg :: split_at_newlines rest := by
  induction seg with
  | nil => exact split_at_newlines_cons_newline rest
  | cons c cs ih =>
    have hcs := ih (fun b hb => hseg b (List.mem_cons_of_mem c hb))
    exact split_at_newlines_cons_other c (cs ++ 10 :: rest) cs _
      (hseg c (List.mem_cons_self c cs)) hcs

theorem split_at_newlines_length (l : List Nat) :
    (split_at_newlines l).length = l.count 10 + 1 := by
  induction l with
  | nil => rfl
  | cons c cs ih =>
    obtain ⟨h, t, ht⟩ := split_at_newlines_ne_nil cs
    by_cases hc : c = 10
    · subst hc
      rw [split_at_newlines_cons_newline, List.length_cons, ih, List.count_cons_self]
    · rw [split_at_newlines_cons_other c cs h t hc ht, List.count_cons_of_ne (Ne.symm hc),
        ← ih, ht]
      rfl

theorem split_at_newlines_no_newline (l : List Nat) :
    ∀ line ∈ split_at_newlines l, 10 ∉ line := by
  induction l with
  | nil =>
    intro line hline
    simp only [split_at_newlines, List.mem_singleton] at hline
    rw [hline]
    exact List.not_mem_nil 10
  | cons c cs ih =>
    obtain ⟨h, t, ht⟩ := split_at_newlines_ne_nil cs
    intro line hline
    by_cases hc : c = 10
    · subst hc
      rw [split_at_newlines_cons_newline, List.mem_cons] at hline
      rcases hline with rfl | hline
      · exact List.not_mem_nil 10
      · exact ih line hline
    · rw [split_at_newlines_cons_other c cs h t hc ht, List.mem_cons] at hline
      rcases hline with rfl | hline
      · intro hmem
        rcases List.mem_cons.mp hmem with h10 | h10
        · exact hc h10.symm
        · exact ih h (by rw [ht]; exact List.mem_cons_self h t) h10
      · exact ih line (by rw [ht]; exact List.mem_cons_of_mem h hline)

theorem intercalate_cons_cons (sep a b : List Nat) (l : List (List Nat)) :
    sep.intercalate (a :: b :: l) = a ++ sep ++ sep.intercalate (b :: l) := by
  simp [List.intercalate, List.intersperse]

theorem intercalate_cons_head (sep : List Nat) (c : Nat) (h : List Nat)
    (t : List (List Nat)) :
    sep.intercalate ((c :: h) :: t) = c :: sep.intercalate (h :: t) := by
  cases t with
  | nil => simp [List.intercalate, List.intersperse]
  | cons b l => rw [intercalate_cons_cons, intercalate_cons_cons]; rfl

theorem split_at_newlines_intercalate (l : List Nat) :
    [10].intercalate (split_at_newlines l) = l := by
  induction l with
  | nil => rfl
  | cons c cs ih =>
    obtain ⟨h, t, ht⟩ := split_at_newlines_ne_nil cs
    by_cases hc : c = 10
    · subst hc
      rw [split_at_newlines_cons_newline, ht, intercalate_cons_cons, ← ht, ih]
      rfl
    · rw [split_at_newlines_cons_other c cs h t hc ht, intercalate_cons_head, ← ht, ih]

/-- The loop of `BLI_file_read_as_lines` at index `i`, with the lines found so far, the
current line `seg = buf[last..i)` and the bytes `rest` still to be looked at. -/
theorem read_as_lines_loop_spec (buf rest : List Nat) :
    ∀ (a seg : List Nat) (lines : List (List Nat)) (i last : Nat),
      buf = a ++ seg ++ rest → last = a.length → i = a.length + seg.length →
      (∀ b ∈ seg, b ≠ 10) →
      read_as_lines_loop buf buf.length (rest.length + 1) i last lines
        = lines ++ split_at_newlines (seg ++ rest) := by
  induction rest with
  | nil =>
    intro a seg lines i last hbuf hlast hi hseg
    have hsize : i = buf.length := by rw [hbuf, hi]; simp
    have hdup : BLI_strdupn buf last (i - last) = seg := by
      rw [hbuf, hlast, hi]
      simp [BLI_strdupn]
    simp only [List.length_nil, Nat.zero_add]
    unfold read_as_lines_loop
    rw [if_pos (Or.inl hsize), hdup]
    unfold read_as_lines_loop
    rw [List.append_nil, split_at_newlines_segment seg hseg]
  | cons c rest ih =>
    intro a seg lines i last hbuf hlast hi hseg
    have hlt : i ≠ buf.length := by rw [hbuf, hi]; simp
    have hget : buf.getD i 0 = c := by
      rw [hbuf, hi, List.append_assoc, List.getD_append_right _ _ _ _ (by omega),
        Nat.add_sub_cancel_left, List.getD_append_right _ _ _ _ (le_refl _), Nat.sub_self]
      rfl
    simp only [List.length_cons]
    unfold read_as_lines_loop
    by_cases hc : c = 10
    · subst hc
      have hdup : BLI_strdupn buf last (i - last) = seg := by
        rw [hbuf, hlast, hi]
        simp [BLI_strdupn]
      rw [if_pos (Or.inr hget), hdup,
        ih (a ++ seg ++ [10]) [] (lines ++ [seg]) (i + 1) (i + 1)
          (by rw [hbuf]; simp) (by rw [hi]; simp; omega) (by rw [hi]; simp; omega)
          (fun b hb => absurd hb (List.not_mem_nil b)),
        split_at_newlines_segment_newline seg rest hseg]
      simp
    · have hcond : ¬ (i = buf.length ∨ buf.getD i 0 = 10) := by
        rw [hget]
        rintro (h | h)
        · exact hlt h
        · exact hc h
      rw [if_neg hcond,
        ih a (seg ++ [c]) lines (i + 1) last (by rw [hbuf]; simp) hlast
          (by rw [hi]; simp; omega)
          (by
            intro b hb
            rcases List.mem_append.mp hb with hb | hb
            · exact hseg b hb
            · rw [List.mem_singleton.mp hb]; exact hc)]
      simp

/-- Claim C23: for every file content that is read, `BLI_file_read_as_lines` returns the
content split at the newline bytes, in file order: the list has one line more than there
are newline bytes, no line contains a newline byte, and joining the lines with a newline
byte gives back the content; an empty file yields one empty line. -/
theorem BLI_file_read_as_lines_spec (content : List Nat) :
    BLI_file_read_as_lines (some content) = split_at_newlines content ∧
    (BLI_file_read_as_lines (some content)).length = content.count 10 + 1 ∧
    (∀ line ∈ BLI_file_read_as_lines (some content), 10 ∉ line) ∧
    [10].intercalate (BLI_file_read_as_lines (some content)) = content ∧
    BLI_file_read_as_lines (some []) = [[]] := by
  have h : BLI_file_read_as_lines (some content) = split_at_newlines content := by
    have := read_as_lines_loop_spec content content [] [] [] 0 0 rfl rfl rfl
      (fun b hb => absurd hb (List.not_mem_nil b))
    simpa [BLI_file_read_as_lines] using this
  refine ⟨h, ?_, ?_, ?_, rfl⟩
  · rw [h]; exact split_at_newlines_length content
  · rw [h]; exact split_at_newlines_no_newline content
  · rw [h]; exact split_at_newlines_intercalate content

end Storage

namespace Compositor

/-! ## Lemmas on wrapping -/

/-- With enough fuel, the loop `while (x < 0) x += step` ends, having added the step a
whole number of times, with a non-negative value. -/
theorem wrap_while_spec (step : ℚ) (fuel : Nat) (x : ℚ)
    (hfuel : -x < fuel * step) :
    ∃ k : ℕ, wrap_while step fuel x = some (x + k * step) ∧ 0 ≤ x + k * step := by
  induction fuel generalizing x with
  | zero =>
    have hx : ¬ x < 0 := by
      intro hneg
      simp only [Nat.cast_zero, zero_mul] at hfuel
      linarith
    exact ⟨0, by simp [wrap_while, hx], by simpa using not_lt.mp hx⟩
  | succ fuel ih =>
    by_cases hx : x < 0
    · have hstep : -(x + step) < fuel * step := by
        push_cast at hfuel
        linarith
      obtain ⟨k, hk, hk0⟩ := ih (x + step) hstep
      refine ⟨k + 1, ?_, ?_⟩
      · simp only [wrap_while, if_pos hx, hk]
        push_cast
        congr 1
        ring
      · push_cast
        linarith
    · exact ⟨0, by simp [wrap_while, hx], by simpa using not_lt.mp hx⟩

theorem fmodf_of_nonneg (y w : ℚ) (hy : 0 ≤ y) (hw : 0 < w) :
    fmodf y w = y - (⌊y / w⌋ : ℚ) * w := by
  have h : 0 ≤ y / w := div_nonneg hy (le_of_lt hw)
  simp only [fmodf, if_pos h]

/-- The common body of the two wrapping functions for a positive size `w`: the loop
followed by `fmodf` gives `x - ⌊x / w⌋ * w` as soon as the fuel exceeds `-x / w`. -/
theorem wrap_then_fmodf (w : Nat) (hw : 0 < w) (x : ℚ) :
    ∃ fuel0 : Nat, ∀ fuel : Nat, fuel0 ≤ fuel →
      (match wrap_while (w : ℚ) fuel x with
        | some x1 => some (fmodf x1 (w : ℚ))
        | none => none) = some (x - (⌊x / (w : ℚ)⌋ : ℚ) * (w : ℚ)) := by
  have hwq : (0 : ℚ) < (w : ℚ) := by exact_mod_cast hw
  obtain ⟨N, hN⟩ := exists_nat_gt (-x / (w : ℚ))
  refine ⟨N, ?_⟩
  intro fuel hfuel
  have hNf : (N : ℚ) ≤ (fuel : ℚ) := by exact_mod_cast hfuel
  have hlt : -x < (fuel : ℚ) * (w : ℚ) := by
    have h1 : -x < (N : ℚ) * (w : ℚ) := (div_lt_iff₀ hwq).mp hN
    have h2 : (N : ℚ) * (w : ℚ) ≤ (fuel : ℚ) * (w : ℚ) :=
      mul_le_mul_of_nonneg_right hNf (le_of_lt hwq)
    linarith
  obtain ⟨k, hk, hk0⟩ := wrap_while_spec (w : ℚ) fuel x hlt
  rw [hk]
  simp only []
  rw [fmodf_of_nonneg _ _ hk0 hwq]
  have hdiv : (x + (k : ℚ) * (w : ℚ)) / (w : ℚ) = x / (w : ℚ) + (k : ℚ) := by
    field_simp
  rw [hdiv, Int.floor_add_nat]
  push_cast
  congr 1
  ring

theorem wrapped_value_spec (w : Nat) (hw : 0 < w) (x : ℚ) :
    0 ≤ x - (⌊x / (w : ℚ)⌋ : ℚ) * (w : ℚ) ∧
    x - (⌊x / (w : ℚ)⌋ : ℚ) * (w : ℚ) < (w : ℚ) ∧
    (∃ m : ℤ, x = (x - (⌊x / (w : ℚ)⌋ : ℚ) * (w : ℚ)) + (m : ℚ) * (w : ℚ)) ∧
    (0 ≤ x → x < (w : ℚ) → x - (⌊x / (w : ℚ)⌋ : ℚ) * (w : ℚ) = x) := by
  have hwq : (0 : ℚ) < (w : ℚ) := by exact_mod_cast hw
  have h1 : (⌊x / (w : ℚ)⌋ : ℚ) ≤ x / (w : ℚ) := Int.floor_le _
  have h2 : x / (w : ℚ) < (⌊x / (w : ℚ)⌋ : ℚ) + 1 := Int.lt_floor_add_one _
  have h1w : (⌊x / (w : ℚ)⌋ : ℚ) * (w : ℚ) ≤ x := (le_div_iff₀ hwq).mp h1
  have h2w : x < ((⌊x / (w : ℚ)⌋ : ℚ) + 1) * (w : ℚ) := (div_lt_iff₀ hwq).mp h2
  refine ⟨by linarith, by linarith, ⟨⌊x / (w : ℚ)⌋, by ring⟩, ?_⟩
  intro hx0 hxw
  have hfl : ⌊x / (w : ℚ)⌋ = 0 := by
    rw [Int.floor_eq_zero_iff]
    exact ⟨div_nonneg hx0 (le_of_lt hwq), (div_lt_one hwq).mpr hxw⟩
  rw [hfl]
  simp

/-! ## Wrap operation -/

/-- Claim C27: in exact arithmetic, for a width `w > 0` and every coordinate `x`,
`getWrappedOriginalXPos` ends (every sufficient fuel gives the same result) and returns a
value `r` with `0 ≤ r < w` that differs from `x` by an integer multiple of `w`, and is `x`
itself when `0 ≤ x < w`; for a width of `0` it returns `0`.  The same holds for
`getWrappedOriginalYPos` with the height. -/
theorem getWrappedOriginalPos_spec (op : WrapOperation) :
    (op.m_width = 0 → ∀ (fuel : Nat) (x : ℚ), op.getWrappedOriginalXPos fuel x = some 0) ∧
    (0 < op.m_width → ∀ x : ℚ, ∃ (fuel0 : Nat) (r : ℚ),
      (∀ fuel : Nat, fuel0 ≤ fuel → op.getWrappedOriginalXPos fuel x = some r) ∧
      0 ≤ r ∧ r < (op.m_width : ℚ) ∧
      (∃ m : ℤ, x = r + (m : ℚ) * (op.m_width : ℚ)) ∧
      (0 ≤ x → x < (op.m_width : ℚ) → r = x)) ∧
    (op.m_height = 0 → ∀ (fuel : Nat) (y : ℚ), op.getWrappedOriginalYPos fuel y = some 0) ∧
    (0 < op.m_height → ∀ y : ℚ, ∃ (fuel0 : Nat) (r : ℚ),
      (∀ fuel : Nat, fuel0 ≤ fuel → op.getWrappedOriginalYPos fuel y = some r) ∧
      0 ≤ r ∧ r < (op.m_height : ℚ) ∧
      (∃ m : ℤ, y = r + (m : ℚ) * (op.m_height : ℚ)) ∧
      (0 ≤ y → y < (op.m_height : ℚ) → r = y)) := by
  refine ⟨?_, ?_, ?_, ?_⟩
  · intro h0 fuel x
    simp [WrapOperation.getWrappedOriginalXPos, WrapOperation.getWidth, h0]
  · intro hw x
    obtain ⟨fuel0, hfuel0⟩ := wrap_then_fmodf op.m_width hw x
    obtain ⟨h1, h2, h3, h4⟩ := wrapped_value_spec op.m_width hw x
    refine ⟨fuel0, _, ?_, h1, h2, h3, h4⟩
    intro fuel hfuel
    have hne : ¬ op.m_width = 0 := by omega
    simp only [WrapOperation.getWrappedOriginalXPos, WrapOperation.getWidth, if_neg hne]
    exact hfuel0 fuel hfuel
  · intro h0 fuel y
    simp [WrapOperation.getWrappedOriginalYPos, WrapOperation.getHeight, h0]
  · intro hh y
    obtain ⟨fuel0, hfuel0⟩ := wrap_then_fmodf op.m_height hh y
    obtain ⟨h1, h2, h3, h4⟩ := wrapped_value_spec op.m_height hh y
    refine ⟨fuel0, _, ?_, h1, h2, h3, h4⟩
    intro fuel hfuel
    have hne : ¬ op.m_height = 0 := by omega
    simp only [WrapOperation.getWrappedOriginalYPos, WrapOperation.getHeight, if_neg hne]
    exact hfuel0 fuel hfuel

/-- Witness for C27: width 4, height 0: some fuel wraps `x = -5/2` to a value in `[0, 4)`
that differs from `x` by a multiple of 4, and every `y` wraps to `0`. -/
theorem getWrappedOriginalPos_spec_witness :
    (0 < (⟨4, 0⟩ : WrapOperation).m_width ∧ (⟨4, 0⟩ : WrapOperation).m_height = 0) ∧
    (∃ (fuel0 : Nat) (r : ℚ),
      (∀ fuel : Nat, fuel0 ≤ fuel →
        (⟨4, 0⟩ : WrapOperation).getWrappedOriginalXPos fuel (-5 / 2) = some r) ∧
      0 ≤ r ∧ r < 4 ∧ (∃ m : ℤ, (-5 / 2 : ℚ) = r + (m : ℚ) * 4)) ∧
    (⟨4, 0⟩ : WrapOperation).getWrappedOriginalYPos 0 (-5 / 2) = some 0 := by
  have h := getWrappedOriginalPos_spec ⟨4, 0⟩
  refine ⟨⟨by decide, rfl⟩, ?_, h.2.2.1 rfl 0 (-5 / 2)⟩
  obtain ⟨fuel0, r, h1, h2, h3, h4, -⟩ := h.2.1 (by decide) (-5 / 2)
  exact ⟨fuel0, r, h1, h2, by simpa using h3, by simpa using h4⟩

/-! ## Mask operation -/

/-- Claim C28: with `CMP_NODE_MASK_MBLUR_SAMPLES_MAX` at least 1 (it is the length of the
array `m_rasterMaskHandles`) and an `int` value, `setMotionBlurSamples` stores
`min(max(1, samples), CMP_NODE_MASK_MBLUR_SAMPLES_MAX)` in `m_rasterMaskHandleTot` for
every `samples`: the stored count is at least 1 and at most the maximum, and is `samples`
itself when `samples` is already in that range; the other fields are unchanged. -/
theorem setMotionBlurSamples_clamps (CMP_NODE_MASK_MBLUR_SAMPLES_MAX : Int)
    (op : MaskOperation) (samples : Int)
    (hmin : 1 ≤ CMP_NODE_MASK_MBLUR_SAMPLES_MAX)
    (hmax : CMP_NODE_MASK_MBLUR_SAMPLES_MAX < 2 ^ 31) :
    ((MaskOperation.setMotionBlurSamples CMP_NODE_MASK_MBLUR_SAMPLES_MAX op
        samples).m_rasterMaskHandleTot : Int)
      = min (max 1 samples) CMP_NODE_MASK_MBLUR_SAMPLES_MAX ∧
    1 ≤ (MaskOperation.setMotionBlurSamples CMP_NODE_MASK_MBLUR_SAMPLES_MAX op
        samples).m_rasterMaskHandleTot ∧
    ((MaskOperation.setMotionBlurSamples CMP_NODE_MASK_MBLUR_SAMPLES_MAX op
        samples).m_rasterMaskHandleTot : Int) ≤ CMP_NODE_MASK_MBLUR_SAMPLES_MAX ∧
    (1 ≤ samples → samples ≤ CMP_NODE_MASK_MBLUR_SAMPLES_MAX →
      ((MaskOperation.setMotionBlurSamples CMP_NODE_MASK_MBLUR_SAMPLES_MAX op
        samples).m_rasterMaskHandleTot : Int) = samples) ∧
    (MaskOperation.setMotionBlurSamples CMP_NODE_MASK_MBLUR_SAMPLES_MAX op
        samples).m_frame_number = op.m_frame_number ∧
    (MaskOperation.setMotionBlurSamples CMP_NODE_MASK_MBLUR_SAMPLES_MAX op
        samples).m_do_feather = op.m_do_feather := by
  have hval : MIN2 (MAX2 1 samples) CMP_NODE_MASK_MBLUR_SAMPLES_MAX
      = min (max 1 samples) CMP_NODE_MASK_MBLUR_SAMPLES_MAX := by
    unfold MIN2 MAX2
    split_ifs <;> omega
  have hlo : 1 ≤ min (max 1 samples) CMP_NODE_MASK_MBLUR_SAMPLES_MAX := by omega
  have hhi : min (max 1 samples) CMP_NODE_MASK_MBLUR_SAMPLES_MAX
      ≤ CMP_NODE_MASK_MBLUR_SAMPLES_MAX := by omega
  have hstored : ((MaskOperation.setMotionBlurSamples CMP_NODE_MASK_MBLUR_SAMPLES_MAX op
      samples).m_rasterMaskHandleTot : Int)
      = min (max 1 samples) CMP_NODE_MASK_MBLUR_SAMPLES_MAX := by
    simp only [MaskOperation.setMotionBlurSamples, hval]
    rw [Int.toNat_of_nonneg (Int.emod_nonneg _ (by norm_num))]
    exact Int.emod_eq_of_lt (by omega) (by omega)
  refine ⟨hstored, ?_, ?_, ?_, rfl, rfl⟩
  · have : (1 : Int) ≤ ((MaskOperation.setMotionBlurSamples CMP_NODE_MASK_MBLUR_SAMPLES_MAX
        op samples).m_rasterMaskHandleTot : Int) := by rw [hstored]; exact hlo
    exact_mod_cast this
  · rw [hstored]; exact hhi
  · intro h1 h2
    rw [hstored]
    omega

/-- Witness for C28: a maximum of 64; `-3` is stored as 1, `100` as 64 and `7` as 7. -/
theorem setMotionBlurSamples_clamps_witness :
    ((1 : Int) ≤ 64 ∧ (64 : Int) < 2 ^ 31) ∧
    ((MaskOperation.setMotionBlurSamples 64 ⟨0, false, 0⟩ (-3)).m_rasterMaskHandleTot : Int)
      = 1 ∧
    ((MaskOperation.setMotionBlurSamples 64 ⟨0, false, 0⟩ 100).m_rasterMaskHandleTot : Int)
      = 64 ∧
    ((MaskOperation.setMotionBlurSamples 64 ⟨0, false, 0⟩ 7).m_rasterMaskHandleTot : Int)
      = 7 :=
  ⟨⟨by decide, by decide⟩,
   (setMotionBlurSamples_clamps 64 ⟨0, false, 0⟩ (-3) (by decide) (by decide)).1.trans
     (by decide),
   (setMotionBlurSamples_clamps 64 ⟨0, false, 0⟩ 100 (by decide) (by decide)).1.trans
     (by decide),
   (setMotionBlurSamples_clamps 64 ⟨0, false, 0⟩ 7 (by decide) (by decide)).1.trans
     (by decide)⟩

end Compositor
